import Mathlib

/-! # go-dns-collector: PowerDNS protobuf collector and suspicious-traffic detector

A shallow embedding of `collectors/powerdns.go` (the `ProtobufPowerDNS`
collector: constructor, `Listen`, `Run`, `HandleConn`, `Stop`) together with
the suspicious-traffic transformer exercised by
`transformers/suspicious_test.go`.

Stateful Go code is embedded as functions that take the collector state and
return the new state, the list of observable effects in program order, and the
way control left the function.  Everything the collector cannot decide by
itself (results of `Accept`, of closing a socket, of binding an address, ...)
is supplied by an explicit environment or script.

`Run` and `Stop` run in different goroutines and meet on the listener and on
the unbuffered done channel.  A goroutine that cannot go on is left parked:
the listener counts the goroutines parked in `Accept`, the channel counts the
senders and the receivers parked on it, and the operation of the other
goroutine that releases them (closing the listener, receiving, sending) lowers
these counts.
-/

namespace PowerDNS

/-! ## Data model -/

/-- Severity of a record written through the collector's logger. -/
inductive Level
  | info
  | error
  | fatal
deriving DecidableEq, Repr

/-- An accepted socket (`net.Conn`): an identity and the text of its
remote address, `conn.RemoteAddr().String()`. -/
structure Conn where
  id : Nat
  peer : String
deriving DecidableEq, Repr

/-- A bound listening socket (`net.Listener`).  `accepting` counts the
goroutines parked in `Accept()` on it. -/
structure Listener where
  addr : String
  closed : Bool
  accepting : Nat
deriving DecidableEq, Repr

/-- The unbuffered `chan bool` of the collector.  A send and a receive complete
together: `pending` counts the senders parked in a send whose value no receiver
has taken yet, `waiting` the receivers parked in a receive. -/
structure Chan where
  closed : Bool
  pending : Nat
  waiting : Nat
deriving DecidableEq, Repr

/-- Result of `make(chan bool)`. -/
def Chan.make : Chan := ⟨false, 0, 0⟩

/-- Send `ch <- true`.  On a closed channel it is the runtime error "send on
closed channel" (`none`).  With a receiver parked on the channel the send
completes at once and releases that receiver (`true`); otherwise the sender
parks with its value offered, until a receiver takes it (`false`). -/
def Chan.send (ch : Chan) : Option (Bool × Chan) :=
  if ch.closed then none
  else if 0 < ch.waiting then some (true, { ch with waiting := ch.waiting - 1 })
  else some (false, { ch with pending := ch.pending + 1 })

/-- Receive `<-ch`.  With a sender parked on the channel the receive takes its
value and releases that sender; on a closed channel it returns at once (both
`true`); otherwise the receiver parks (`false`). -/
def Chan.recv (ch : Chan) : Bool × Chan :=
  if 0 < ch.pending then (true, { ch with pending := ch.pending - 1 })
  else if ch.closed then (true, ch)
  else (false, { ch with waiting := ch.waiting + 1 })

/-- Builtin `close(ch)`: `none` is the runtime error "close of closed channel";
otherwise the channel is closed and the receivers parked on it are released.
A sender still parked on the channel would end in a runtime error of its own;
`Stop` closes the channel after its receive has released `Run`. -/
def Chan.close (ch : Chan) : Option Chan :=
  if ch.closed then none else some { ch with closed := true, waiting := 0 }

/-- The channel after `k` goroutines have each gone on to a send on it, one
after the other.  On a closed channel such a send is a runtime error of the
sending goroutine and leaves the channel as it is. -/
def Chan.wake (ch : Chan) : Nat → Chan
  | 0 => ch
  | k + 1 =>
    match ch.send with
    | none => ch
    | some r => Chan.wake r.2 k

/-- Fields of `config.Collectors.PowerDNS` read by the collector. -/
structure PowerDNSConfig where
  ListenIP : String
  ListenPort : Int
  TlsSupport : Bool
  TlsMinVersion : String
  CertFile : String
  KeyFile : String
  ResetConn : Bool
deriving DecidableEq, Repr

/-- Fields of `config.Collectors.Dnstap` read by the collector. -/
structure DnstapConfig where
  RcvBufSize : Int
  TlsSupport : Bool
deriving DecidableEq, Repr

/-- The part of `dnsutils.Config` the collector reads. -/
structure Config where
  PowerDNS : PowerDNSConfig
  Dnstap : DnstapConfig
deriving DecidableEq, Repr

/-- Behaviour of the collaborators outside `powerdns.go`: the `dnsutils`
helpers and the operating system. -/
structure Env where
  /-- Function `dnsutils.IsValidTLS`. -/
  IsValidTLS : String → Bool
  /-- Lookup in the table `dnsutils.TLS_VERSION`. -/
  TLS_VERSION : String → Nat
  /-- Whether `tls.LoadX509KeyPair certFile keyFile` succeeds. -/
  loadKeyPair : String → String → Bool
  /-- Whether binding the given address succeeds. -/
  listenOk : String → Bool
  /-- Whether closing the given socket returns an error. -/
  connCloseErr : Conn → Bool
  /-- Whether closing the listener returns an error. -/
  listenCloseErr : Bool

/-- Observable effects, in program order. -/
inductive Event
  | log (lvl : Level) (msg : String) (args : List String)
  | loadKeyPair (cert key : String) (ok : Bool)
  | netListen (addr : String) (tlsMin : Option Nat) (ok : Bool)
  | accept (conn : Option Conn)
  | setRcvBuf (conn : Conn) (size : Int) (tls : Bool) (ok : Bool)
  | goHandleConn (conn : Conn)
  | newProcessor
  | goProcessorRun (channels : Nat)
  | processStream (conn : Conn) (err : Option String)
  | close (conn : Conn) (reset : Bool) (err : Bool)
  | listenerClose (err : Bool)
  /-- The send `c.done <- true`: the value is offered on the channel. -/
  | doneSend
  | doneRecv
  | doneClose
deriving DecidableEq, Repr

/-- How control leaves a function of the collector. -/
inductive Outcome
  | returned
  /-- Parked in `Accept()`: the script of accept results is used up. -/
  | blockedAccept
  /-- Parked in `<-c.done`, until a sender offers a value. -/
  | blockedRecv
  /-- Parked in `c.done <- true`, until a receiver takes the value. -/
  | blockedSend
  /-- Process terminated by `logger.Fatal`. -/
  | fatal
  /-- Runtime error: method call on the nil `net.Listener`. -/
  | panicNilListener
  /-- Runtime error: close of closed channel. -/
  | panicCloseClosed
  /-- Runtime error: send on closed channel. -/
  | panicSendClosed
deriving DecidableEq, Repr

/-- The struct `ProtobufPowerDNS`.  The `logger` field is represented by the
log events of the trace; `loggers` keeps the names of the registered workers. -/
structure ProtobufPowerDNS where
  done : Chan
  listen : Option Listener
  conns : List Conn
  loggers : List String
  config : Config
  name : String
deriving DecidableEq, Repr

/-- State, effects and exit of one call. -/
structure Res where
  state : ProtobufPowerDNS
  trace : List Event
  outcome : Outcome
deriving DecidableEq, Repr

/-! ## Operations -/

/-- Method `LogInfo`: `c.logger.Info("["+c.name+"] pdns collector - "+msg, v...)`. -/
def LogInfo (c : ProtobufPowerDNS) (msg : String) (v : List String) : Event :=
  Event.log Level.info ("[" ++ c.name ++ "] pdns collector - " ++ msg) v

/-- Method `LogError`: `c.logger.Error("["+c.name+"] pdns collector - "+msg, v...)`. -/
def LogError (c : ProtobufPowerDNS) (msg : String) (v : List String) : Event :=
  Event.log Level.error ("[" ++ c.name ++ "] pdns collector - " ++ msg) v

/-- Modelled from the spec: `netlib.Close(conn, reset)`, which is not among the
sources.  The spec has the shutdown path close every tracked connection, with a
connection-reset-on-close flag taken from configuration; the call site passes
the connection and that flag only (no logger) and drops the returned error.
The model performs one close of the socket, tagged with the flag, and returns
whether it failed. -/
def netlib.Close (env : Env) (conn : Conn) (reset : Bool) : List Event × Bool :=
  ([Event.close conn reset (env.connCloseErr conn)], env.connCloseErr conn)

/-- The loop `for _, conn := range c.conns` of `Stop`. -/
def stopConns (env : Env) (c : ProtobufPowerDNS) : List Conn → List Event
  | [] => []
  | conn :: rest =>
      LogInfo c "%s - closing connection..." [conn.peer]
        :: ((netlib.Close env conn c.config.PowerDNS.ResetConn).1 ++ stopConns env c rest)

/-- Call `c.listen.Close()` on the bound listener `l`: the listener is closed
and every `Accept` parked on it returns an error, so each `Run` parked there
leaves its loop (lines 159-162) and goes on to its send on the done channel
(line 181). -/
def closeListener (c : ProtobufPowerDNS) (l : Listener) : ProtobufPowerDNS :=
  { c with listen := some { l with closed := true, accepting := 0 },
           done := c.done.wake l.accepting }

/-- Method `Stop`.  The receive on the done channel sees the channel as it is
after the close of the listener, that is with the send of a `Run` that was
parked in `Accept`. -/
def Stop (env : Env) (c : ProtobufPowerDNS) : Res :=
  let t :=
    [LogInfo c "stopping..." []] ++ stopConns env c c.conns ++ [LogInfo c "stop listening..." []]
  match c.listen with
  | none => ⟨c, t, Outcome.panicNilListener⟩
  | some l =>
    let c1 := closeListener c l
    let t1 := t ++ [Event.listenerClose (l.closed || env.listenCloseErr)]
    match c1.done.recv with
    | (false, ch) => ⟨{ c1 with done := ch }, t1, Outcome.blockedRecv⟩
    | (true, ch) =>
      let c2 := { c1 with done := ch }
      let t2 := t1 ++ [Event.doneRecv]
      match ch.close with
      | none => ⟨c2, t2, Outcome.panicCloseClosed⟩
      | some ch2 => ⟨{ c2 with done := ch2 }, t2 ++ [Event.doneClose], Outcome.returned⟩

/-- The trace of `Stop` up to and including the close of the listener. -/
def stopHead (env : Env) (c : ProtobufPowerDNS) (l : Listener) : List Event :=
  [LogInfo c "stopping..." []] ++ stopConns env c c.conns ++ [LogInfo c "stop listening..." []]
    ++ [Event.listenerClose (l.closed || env.listenCloseErr)]

/-- Method `Loggers`: one channel per registered worker. -/
def Loggers (c : ProtobufPowerDNS) : List String :=
  c.loggers.foldl (fun channels p => channels ++ [p]) []

/-- Method `ReadConfig`: `logger.Fatal` when the TLS minimum version label is
not valid. -/
def ReadConfig (env : Env) (c : ProtobufPowerDNS) : List Event × Outcome :=
  if !env.IsValidTLS c.config.PowerDNS.TlsMinVersion then
    ([Event.log Level.fatal "collector powerdns - invalid tls min version" []], Outcome.fatal)
  else ([], Outcome.returned)

/-- Constructor `NewProtobufPowerDNS`. -/
def NewProtobufPowerDNS (env : Env) (loggers : List String) (config : Config)
    (name : String) : Res :=
  let s : ProtobufPowerDNS :=
    { done := Chan.make, listen := none, conns := [], loggers := loggers,
      config := config, name := name }
  let r := ReadConfig env s
  ⟨s, Event.log Level.info "[%s] pdns collector - enabled" [name] :: r.1, r.2⟩

/-- Method `HandleConn`.  `stream` is what `ProcessStream` returned: `none` for
nil, `some err` for a transport error.  The deferred `conn.Close()` runs last. -/
def HandleConn (env : Env) (c : ProtobufPowerDNS) (conn : Conn) (stream : Option String) :
    List Event :=
  let peer := conn.peer
  [LogInfo c "%s - new connection\n" [peer],
   Event.newProcessor,
   Event.goProcessorRun (Loggers c).length,
   Event.processStream conn stream]
  ++ (match stream with
      | some err => [LogError c "transport error: %s" [err]]
      | none => [])
  ++ [LogInfo c "%s - connection closed\n" [peer]]
  ++ [Event.close conn false (env.connCloseErr conn)]

/-- Tail of `Listen` shared by the TLS and the plain branch: bind, then record
the listener. -/
def listenOn (env : Env) (c : ProtobufPowerDNS) (t : List Event) (addrlisten : String)
    (tlsMin : Option Nat) : Res × Option String :=
  let ok := env.listenOk addrlisten
  let t1 := t ++ [Event.netListen addrlisten tlsMin ok]
  if !ok then (⟨c, t1, Outcome.returned⟩, some "listen failed")
  else
    (⟨{ c with listen := some ⟨addrlisten, false, 0⟩ },
      t1 ++ [LogInfo c "is listening on %s" [addrlisten]], Outcome.returned⟩, none)

/-- Method `Listen`.  The second component is the returned `error`. -/
def Listen (env : Env) (c : ProtobufPowerDNS) : Res × Option String :=
  let t0 := [LogInfo c "running in background..." []]
  let addrlisten := c.config.PowerDNS.ListenIP ++ ":" ++ toString c.config.PowerDNS.ListenPort
  if c.config.PowerDNS.TlsSupport then
    let ok := env.loadKeyPair c.config.PowerDNS.CertFile c.config.PowerDNS.KeyFile
    let t1 := t0 ++ [LogInfo c "tls support enabled" [],
      Event.loadKeyPair c.config.PowerDNS.CertFile c.config.PowerDNS.KeyFile ok]
    if !ok then
      (⟨c, t1 ++ [Event.log Level.fatal "loading certificate failed:" ["err"]], Outcome.fatal⟩,
        none)
    else
      listenOn env c t1 addrlisten (some (env.TLS_VERSION c.config.PowerDNS.TlsMinVersion))
  else listenOn env c t0 addrlisten none

/-- One result of `c.listen.Accept()`, together with what
`netlib.SetSock_RCVBUF` returns on the accepted socket if it is called:
`none` for an error, `some (before, actual)` otherwise. -/
inductive AcceptResult
  | err
  | conn (conn : Conn) (rcvBuf : Option (Int × Int))
deriving DecidableEq, Repr

/-- The `for` loop of `Run`, driven by a script of accept results.  When the
script is used up the goroutine is parked in `Accept()`, which the listener
records. -/
def acceptLoop (c : ProtobufPowerDNS) : List AcceptResult → Res
  | [] =>
    ⟨{ c with listen := c.listen.map (fun l => { l with accepting := l.accepting + 1 }) }, [],
      Outcome.blockedAccept⟩
  | AcceptResult.err :: _ => ⟨c, [Event.accept none], Outcome.returned⟩
  | AcceptResult.conn conn rcvBuf :: rest =>
    let next := acceptLoop { c with conns := c.conns ++ [conn] } rest
    if c.config.Dnstap.RcvBufSize > 0 then
      match rcvBuf with
      | none =>
        ⟨c, [Event.accept (some conn),
             Event.setRcvBuf conn c.config.Dnstap.RcvBufSize c.config.Dnstap.TlsSupport false,
             Event.log Level.fatal "Unable to set SO_RCVBUF: " ["err"]], Outcome.fatal⟩
      | some (before, actual) =>
        ⟨next.state,
         [Event.accept (some conn),
          Event.setRcvBuf conn c.config.Dnstap.RcvBufSize c.config.Dnstap.TlsSupport true,
          LogInfo c "set SO_RCVBUF option, value before: %d, desired: %d, actual: %d"
            [toString before, toString c.config.Dnstap.RcvBufSize, toString actual],
          Event.goHandleConn conn] ++ next.trace,
         next.outcome⟩
    else
      ⟨next.state, [Event.accept (some conn), Event.goHandleConn conn] ++ next.trace,
       next.outcome⟩

/-- What `Run` does once the listener is there: the accept loop, then the
completion signal.  The send on the unbuffered done channel leaves `Run` parked
until `Stop` receives, unless a `Stop` is already parked in its receive. -/
def runLoop (c : ProtobufPowerDNS) (t : List Event) (accepts : List AcceptResult) : Res :=
  let r := acceptLoop c accepts
  match r.outcome with
  | Outcome.returned =>
    let t1 := t ++ r.trace ++ [LogInfo c "run terminated" []]
    match r.state.done.send with
    | none => ⟨r.state, t1, Outcome.panicSendClosed⟩
    | some (true, ch) =>
      ⟨{ r.state with done := ch }, t1 ++ [Event.doneSend], Outcome.returned⟩
    | some (false, ch) =>
      ⟨{ r.state with done := ch }, t1 ++ [Event.doneSend], Outcome.blockedSend⟩
  | o => ⟨r.state, t ++ r.trace, o⟩

/-- Method `Run`. -/
def Run (env : Env) (c : ProtobufPowerDNS) (accepts : List AcceptResult) : Res :=
  let t0 := [LogInfo c "starting collector..." []]
  match c.listen with
  | some _ => runLoop c t0 accepts
  | none =>
    let r := Listen env c
    match r.1.outcome, r.2 with
    | Outcome.returned, none => runLoop r.1.state (t0 ++ r.1.trace) accepts
    | Outcome.returned, some err =>
      ⟨r.1.state,
       t0 ++ r.1.trace ++ [Event.log Level.fatal "collector dnstap listening failed: " [err]],
       Outcome.fatal⟩
    | o, _ => ⟨r.1.state, t0 ++ r.1.trace, o⟩

/-- Whether an event is a log record. -/
def Event.isLog : Event → Bool
  | Event.log _ _ _ => true
  | _ => false

/-- The effects of a trace other than log records. -/
def effects (t : List Event) : List Event := t.filter (fun e => !e.isLog)

/-- The log records of a trace. -/
def logs (t : List Event) : List Event := t.filter Event.isLog

/-- Whether an event is a close of a socket. -/
def Event.isClose : Event → Bool
  | Event.close _ _ _ => true
  | _ => false

/-- Whether an event is a log record at error or fatal level. -/
def Event.isFailureLog : Event → Bool
  | Event.log Level.error _ _ => true
  | Event.log Level.fatal _ _ => true
  | _ => false

/-- Whether an event is a log record at info level. -/
def Event.isInfoLog : Event → Bool
  | Event.log Level.info _ _ => true
  | _ => false

/-- Number of times a trace closes the socket of `conn`. -/
def closeCount (conn : Conn) (t : List Event) : Nat :=
  (t.filter (fun e =>
    match e with
    | Event.close x _ _ => decide (x = conn)
    | _ => false)).length

/-- The connections for which a trace dispatches a worker (`go c.HandleConn`),
in order. -/
def spawned : List Event → List Conn
  | [] => []
  | Event.goHandleConn conn :: t => conn :: spawned t
  | _ :: t => spawned t

/-- The results of the `Accept` calls of a trace, in order. -/
def acceptCalls : List Event → List (Option Conn)
  | [] => []
  | Event.accept r :: t => r :: acceptCalls t
  | _ :: t => acceptCalls t

/-- A script of accepts that all succeed. -/
def okScript (pre : List (Conn × Option (Int × Int))) : List AcceptResult :=
  pre.map (fun p => AcceptResult.conn p.1 p.2)

/-- The effects of the accept loop for connections accepted without a
receive-buffer override: per connection the accept and the dispatch of its
worker. -/
def acceptedEvents : List Conn → List Event
  | [] => []
  | conn :: rest => Event.accept (some conn) :: Event.goHandleConn conn :: acceptedEvents rest

/-- Per tracked connection, in list order, the info record that announces its
close followed by that close, as `Stop` of the collector called `name` makes
them. -/
def announcedCloses (env : Env) (name : String) (reset : Bool) : List Conn → List Event
  | [] => []
  | conn :: rest =>
    Event.log Level.info ("[" ++ name ++ "] pdns collector - " ++ "%s - closing connection...")
        [conn.peer]
      :: Event.close conn reset (env.connCloseErr conn)
      :: announcedCloses env name reset rest

/-- A script of accepts that all succeed and on which the receive-buffer
override is applied successfully; each entry carries the sizes
`SetSock_RCVBUF` reports. -/
def tunedScript (pre : List (Conn × (Int × Int))) : List AcceptResult :=
  pre.map (fun p => AcceptResult.conn p.1 (some p.2))

/-- The events of the accept loop for the connections of a `tunedScript`. -/
def tunedEvents (c : ProtobufPowerDNS) : List (Conn × (Int × Int)) → List Event
  | [] => []
  | p :: rest =>
    [Event.accept (some p.1),
     Event.setRcvBuf p.1 c.config.Dnstap.RcvBufSize c.config.Dnstap.TlsSupport true,
     LogInfo c "set SO_RCVBUF option, value before: %d, desired: %d, actual: %d"
       [toString p.2.1, toString c.config.Dnstap.RcvBufSize, toString p.2.2],
     Event.goHandleConn p.1] ++ tunedEvents c rest

/-- The workers of the given connections, each run to completion; `stream` says
how stream processing ends on each connection. -/
def workers (env : Env) (c : ProtobufPowerDNS) (stream : Conn → Option String) :
    List Conn → List Event
  | [] => []
  | conn :: rest => HandleConn env c conn (stream conn) ++ workers env c stream rest

/-- The events of one life of the collector: `Run` over a script of accept
results, the worker of every dispatched connection, and `Stop` on the state
`Run` has built (`envStop` gives the results of the closes `Stop` makes).
Other interleavings of the three have the same events in another order. -/
def execution (env envStop : Env) (c : ProtobufPowerDNS) (accepts : List AcceptResult)
    (stream : Conn → Option String) : List Event :=
  (Run env c accepts).trace
    ++ workers env (Run env c accepts).state stream (spawned (Run env c accepts).trace)
    ++ (Stop envStop (Run env c accepts).state).trace

/-! ## Sample data -/

/-- A configuration without TLS and without a receive-buffer override. -/
def sampleConfig : Config :=
  ⟨⟨"127.0.0.1", 6001, false, "1.2", "", "", false⟩, ⟨0, false⟩⟩

/-- The same configuration with a receive-buffer override of 4096 bytes. -/
def rcvBufConfig : Config :=
  ⟨⟨"127.0.0.1", 6001, false, "1.2", "", "", false⟩, ⟨4096, false⟩⟩

/-- An environment in which every external operation succeeds. -/
def sampleEnv : Env :=
  { IsValidTLS := fun v => v == "1.0" || v == "1.1" || v == "1.2" || v == "1.3"
    TLS_VERSION := fun _ => 771
    loadKeyPair := fun _ _ => true
    listenOk := fun _ => true
    connCloseErr := fun _ => false
    listenCloseErr := false }

/-- An environment in which every close of a socket or listener fails. -/
def failingCloseEnv : Env :=
  { sampleEnv with connCloseErr := fun _ => true, listenCloseErr := true }

/-- First sample connection. -/
def conn1 : Conn := ⟨1, "192.0.2.1:40001"⟩

/-- Second sample connection. -/
def conn2 : Conn := ⟨2, "192.0.2.2:40002"⟩

/-- The listener bound under `sampleConfig`. -/
def sampleListener : Listener := ⟨"127.0.0.1:6001", false, 0⟩

/-- A collector as the constructor leaves it. -/
def freshCollector : ProtobufPowerDNS :=
  { done := Chan.make, listen := none, conns := [], loggers := ["stdout"],
    config := sampleConfig, name := "pdns" }

/-- A collector after `Listen`, before `Run`. -/
def listeningCollector : ProtobufPowerDNS :=
  { freshCollector with listen := some sampleListener }

/-- A collector whose `Run` has accepted two connections, has then left the
accept loop and is parked in its send on the done channel. -/
def ranCollector : ProtobufPowerDNS :=
  { freshCollector with
    listen := some sampleListener, conns := [conn1, conn2], done := ⟨false, 1, 0⟩ }

/-- A collector whose `Run` has accepted two connections and is parked in
`Accept`. -/
def acceptingCollector : ProtobufPowerDNS :=
  { freshCollector with
    listen := some ⟨"127.0.0.1:6001", false, 1⟩, conns := [conn1, conn2] }

/-- Third sample connection. -/
def conn3 : Conn := ⟨3, "192.0.2.3:40003"⟩

/-- A collector on which `Stop` has returned and `Listen` has then bound a
listener again: the listener is open, the done channel is closed. -/
def reboundCollector : ProtobufPowerDNS :=
  (Listen sampleEnv (Stop sampleEnv ranCollector).state).1.state

/-- A listening collector configured with a receive-buffer override. -/
def rcvBufCollector : ProtobufPowerDNS :=
  { listeningCollector with config := rcvBufConfig }

/-- Stream processing that ends cleanly on the first sample connection and with
a transport error on every other one. -/
def sampleStream (conn : Conn) : Option String :=
  if conn.id = 1 then none else some "read timeout"

end PowerDNS

namespace Suspicious

/-! ## Suspicious-traffic detector

`transformers/suspicious.go` is not among the sources; only its test file is.
The field names below are the ones the tests use; the behaviour follows the
specification of the detector. -/

/-- Modelled from the spec: the suspicious result block (`dm.Suspicious`), whose
declaration is missing: a score and seven independent boolean flags.  The score
only ever takes the values 0 to 7 and is kept as a natural number. -/
structure TransformSuspicious where
  Score : Nat
  MalformedPacket : Bool
  LargePacket : Bool
  LongDomain : Bool
  SlowDomain : Bool
  UnallowedChars : Bool
  UncommonQtypes : Bool
  ExcessiveNumberLabels : Bool
deriving DecidableEq, Repr

/-- Modelled from the spec: the fields of the record (`dm.DNS`) the detector
reads; the declaration is missing. -/
structure Dns where
  Qname : String
  Qtype : String
  Length : Int
  MalformedPacket : Bool
deriving DecidableEq, Repr

/-- Modelled from the spec: the record (`dnsutils.DnsMessage`) as far as the
detector is concerned; the declaration is missing. -/
structure DnsMessage where
  DNS : Dns
  Suspicious : TransformSuspicious
deriving DecidableEq, Repr

/-- Modelled from the spec: the detector's configuration (`config.Suspicious`):
the enable flag and the three numeric thresholds; the declaration is missing. -/
structure ConfigSuspicious where
  Enable : Bool
  ThresholdQnameLen : Int
  ThresholdPacketLen : Int
  ThresholdMaxLabels : Int
deriving DecidableEq, Repr

/-- Modelled from the spec: the detector stage (`SuspiciousSubprocessor`), whose
declaration is missing: its configuration and the fixed allow-list of common
resource-record types, which the spec names only in part ("A, AAAA, CNAME, MX,
NS, PTR, SOA, SRV, TXT, etc.") and which is therefore left open. -/
structure SuspiciousSubprocessor where
  config : ConfigSuspicious
  CommonQtypes : List String
deriving DecidableEq, Repr

/-- Modelled from the spec: a fresh result block, "score 0, all flags false". -/
def TransformSuspicious.zero : TransformSuspicious :=
  ⟨0, false, false, false, false, false, false, false⟩

/-- Modelled from the spec: `InitDnsMessage`, missing from the sources:
"attaches a fresh, zeroed result block"; calling it again resets the block. -/
def InitDnsMessage (_p : SuspiciousSubprocessor) (dm : DnsMessage) : DnsMessage :=
  { dm with Suspicious := TransformSuspicious.zero }

/-- Modelled from the spec: when a threshold criterion matches, for the missing
detector: the value is "≥ configured threshold", and "an unset/zero threshold
simply never matches". -/
def reaches (value threshold : Int) : Bool :=
  threshold != 0 && decide (threshold ≤ value)

/-- Modelled from the spec: "number of dot-separated labels in the domain
name", for the missing detector: one more than the number of dots. -/
def labelCount (qname : String) : Nat :=
  qname.data.count '.' + 1

/-- Modelled from the spec: "the permitted DNS-label character set (letters,
digits, hyphen, dot)", for the missing detector. -/
def allowedChar (ch : Char) : Bool :=
  ch.isAlpha || ch.isDigit || ch == '-' || ch == '.'

/-- Modelled from the spec: the domain name "contains characters outside the
permitted DNS-label character set", for the missing detector. -/
def hasUnallowedChars (qname : String) : Bool :=
  qname.data.any (fun ch => !allowedChar ch)

/-- Modelled from the spec: raising one flag of the missing detector: "sets its
corresponding boolean flag to true and increments the score by 1". -/
def bump (fire : Bool) (set : TransformSuspicious → TransformSuspicious)
    (b : TransformSuspicious) : TransformSuspicious :=
  if fire then set { b with Score := b.Score + 1 } else b

/-- Modelled from the spec: `CheckIfSuspicious`, missing from the sources: "only
when the stage is enabled, independently tests each of the following criteria
against the Record and the stage's configured thresholds", in the order of the
table; the slow-domain flag has no evaluation logic. -/
def CheckIfSuspicious (p : SuspiciousSubprocessor) (dm : DnsMessage) : DnsMessage :=
  if !p.config.Enable then dm
  else
    let b := dm.Suspicious
    let b := bump dm.DNS.MalformedPacket (fun x => { x with MalformedPacket := true }) b
    let b := bump (reaches dm.DNS.Length p.config.ThresholdPacketLen)
      (fun x => { x with LargePacket := true }) b
    let b := bump (reaches dm.DNS.Qname.length p.config.ThresholdQnameLen)
      (fun x => { x with LongDomain := true }) b
    let b := bump (!p.CommonQtypes.contains dm.DNS.Qtype)
      (fun x => { x with UncommonQtypes := true }) b
    let b := bump (reaches (labelCount dm.DNS.Qname) p.config.ThresholdMaxLabels)
      (fun x => { x with ExcessiveNumberLabels := true }) b
    let b := bump (hasUnallowedChars dm.DNS.Qname)
      (fun x => { x with UnallowedChars := true }) b
    { dm with Suspicious := b }

/-- The six criteria of the table of the spec that have evaluation logic,
as the detector tests them on a record. -/
def triggers (p : SuspiciousSubprocessor) (dm : DnsMessage) : List Bool :=
  [dm.DNS.MalformedPacket,
   reaches dm.DNS.Length p.config.ThresholdPacketLen,
   reaches dm.DNS.Qname.length p.config.ThresholdQnameLen,
   !p.CommonQtypes.contains dm.DNS.Qtype,
   reaches (labelCount dm.DNS.Qname) p.config.ThresholdMaxLabels,
   hasUnallowedChars dm.DNS.Qname]

/-- Number of flags of a result block that are true. -/
def TransformSuspicious.flagCount (b : TransformSuspicious) : Nat :=
  [b.MalformedPacket, b.LargePacket, b.LongDomain, b.SlowDomain, b.UnallowedChars,
   b.UncommonQtypes, b.ExcessiveNumberLabels].count true

/-! ## Sample data -/

/-- An enabled detector whose thresholds the sample record does not reach. -/
def sampleProcessor : SuspiciousSubprocessor :=
  ⟨⟨true, 100, 1000, 10⟩, ["A", "AAAA", "CNAME", "MX", "NS", "PTR", "SOA", "SRV", "TXT"]⟩

/-- The same detector with the packet-length threshold left at zero. -/
def zeroThresholdProcessor : SuspiciousSubprocessor :=
  ⟨⟨true, 100, 0, 10⟩, ["A", "AAAA", "CNAME", "MX", "NS", "PTR", "SOA", "SRV", "TXT"]⟩

/-- A record for the default domain of the tests, with a packet of 50 bytes. -/
def sampleMessage : DnsMessage :=
  ⟨⟨"dnscollector.fr", "A", 50, false⟩, TransformSuspicious.zero⟩

/-- The record of the unallowed-characters test. -/
def paddedMessage : DnsMessage :=
  ⟨⟨"AAAAAA==.dnscollector.com", "A", 50, false⟩, TransformSuspicious.zero⟩

end Suspicious

namespace PowerDNS

/-! ## Auxiliary facts about traces and the done channel -/

theorem effects_append (s t : List Event) : effects (s ++ t) = effects s ++ effects t := by
  simp [effects]

theorem logs_append (s t : List Event) : logs (s ++ t) = logs s ++ logs t := by
  simp [logs]

theorem effects_cons (e : Event) (t : List Event) :
    effects (e :: t) = if e.isLog then effects t else e :: effects t := by
  cases h : e.isLog <;> simp [effects, List.filter_cons, h]

theorem logs_cons (e : Event) (t : List Event) :
    logs (e :: t) = if e.isLog then e :: logs t else logs t := by
  cases h : e.isLog <;> simp [logs, List.filter_cons, h]

theorem effects_nil : effects [] = [] := rfl

theorem logs_nil : logs [] = [] := rfl

theorem mem_effects {e : Event} {t : List Event} :
    e ∈ effects t ↔ e ∈ t ∧ e.isLog = false := by
  simp [effects]

theorem Chan.wake_closed (ch : Chan) (k : Nat) : (ch.wake k).closed = ch.closed := by
  induction k generalizing ch with
  | zero => rfl
  | succ k ih =>
    unfold Chan.wake
    cases hs : ch.send with
    | none => rfl
    | some r =>
      simp only
      rw [ih]
      unfold Chan.send at hs
      split at hs
      · cases hs
      · split at hs <;> (cases hs; rfl)

/-- On an open channel without a parked receiver, every woken sender parks. -/
theorem Chan.wake_open (ch : Chan) (k : Nat) (hc : ch.closed = false) (hw : ch.waiting = 0) :
    ch.wake k = { ch with pending := ch.pending + k } := by
  induction k generalizing ch with
  | zero => rfl
  | succ k ih =>
    unfold Chan.wake
    have hs : ch.send = some (false, { ch with pending := ch.pending + 1 }) := by
      simp [Chan.send, hc, hw]
    simp only [hs]
    have h2 := ih { ch with pending := ch.pending + 1 } hc hw
    rw [h2]
    simp [Nat.add_assoc, Nat.add_comm 1 k]

theorem Chan.recv_closed (ch : Chan) : ch.recv.2.closed = ch.closed := by
  unfold Chan.recv
  split
  · rfl
  · split <;> rfl

theorem Chan.recv_true (ch : Chan) (h : 0 < ch.pending) :
    ch.recv = (true, { ch with pending := ch.pending - 1 }) := by
  simp [Chan.recv, h]

theorem effects_stopConns (env : Env) (c : ProtobufPowerDNS) (conns : List Conn) :
    effects (stopConns env c conns)
      = conns.map (fun conn =>
          Event.close conn c.config.PowerDNS.ResetConn (env.connCloseErr conn)) := by
  induction conns with
  | nil => rfl
  | cons conn rest ih =>
    simp [stopConns, netlib.Close, effects_cons, LogInfo, Event.isLog, ih]

theorem logs_stopConns (env : Env) (c : ProtobufPowerDNS) (conns : List Conn) :
    logs (stopConns env c conns)
      = conns.map (fun conn => LogInfo c "%s - closing connection..." [conn.peer]) := by
  induction conns with
  | nil => rfl
  | cons conn rest ih =>
    simp [stopConns, netlib.Close, logs_cons, LogInfo, Event.isLog, ih]

theorem stopConns_eq_announcedCloses (env : Env) (c : ProtobufPowerDNS) (conns : List Conn) :
    stopConns env c conns
      = announcedCloses env c.name c.config.PowerDNS.ResetConn conns := by
  induction conns with
  | nil => rfl
  | cons conn rest ih => simp [stopConns, announcedCloses, netlib.Close, LogInfo, ih]

theorem effects_stopHead (env : Env) (c : ProtobufPowerDNS) (l : Listener) :
    effects (stopHead env c l)
      = c.conns.map (fun conn =>
          Event.close conn c.config.PowerDNS.ResetConn (env.connCloseErr conn))
        ++ [Event.listenerClose (l.closed || env.listenCloseErr)] := by
  simp [stopHead, effects_append, effects_stopConns, effects_cons, effects_nil,
    LogInfo, Event.isLog]

theorem logs_stopHead (env : Env) (c : ProtobufPowerDNS) (l : Listener) :
    logs (stopHead env c l)
      = LogInfo c "stopping..." []
        :: (c.conns.map (fun conn => LogInfo c "%s - closing connection..." [conn.peer])
            ++ [LogInfo c "stop listening..." []]) := by
  simp [stopHead, logs_append, logs_stopConns, logs_cons, logs_nil,
    LogInfo, Event.isLog]

/-- Method `Stop` on a bound listener, spelled out by the state of the done
channel after the close of the listener. -/
theorem Stop_bound (env : Env) (c : ProtobufPowerDNS) (l : Listener) (h : c.listen = some l) :
    Stop env c =
      match (closeListener c l).done.recv with
      | (false, ch) =>
        ⟨{ closeListener c l with done := ch }, stopHead env c l, Outcome.blockedRecv⟩
      | (true, ch) =>
        match ch.close with
        | none =>
          ⟨{ closeListener c l with done := ch },
            stopHead env c l ++ [Event.doneRecv], Outcome.panicCloseClosed⟩
        | some ch2 =>
          ⟨{ closeListener c l with done := ch2 },
            stopHead env c l ++ [Event.doneRecv] ++ [Event.doneClose], Outcome.returned⟩ := by
  unfold Stop stopHead
  rw [h]

/-- The three ways `Stop` can go on a bound listener. -/
theorem Stop_cases (env : Env) (c : ProtobufPowerDNS) (l : Listener) (h : c.listen = some l) :
    (∃ ch, (closeListener c l).done.recv = (false, ch)
        ∧ Stop env c
          = ⟨{ closeListener c l with done := ch }, stopHead env c l, Outcome.blockedRecv⟩)
    ∨ (∃ ch, (closeListener c l).done.recv = (true, ch) ∧ ch.closed = true
        ∧ Stop env c
          = ⟨{ closeListener c l with done := ch },
              stopHead env c l ++ [Event.doneRecv], Outcome.panicCloseClosed⟩)
    ∨ (∃ ch, (closeListener c l).done.recv = (true, ch) ∧ ch.closed = false
        ∧ Stop env c
          = ⟨{ closeListener c l with done := { ch with closed := true, waiting := 0 } },
              stopHead env c l ++ [Event.doneRecv] ++ [Event.doneClose],
              Outcome.returned⟩) := by
  rw [Stop_bound env c l h]
  rcases hr : (closeListener c l).done.recv with ⟨b, ch⟩
  cases b with
  | false => exact Or.inl ⟨ch, rfl, rfl⟩
  | true =>
    cases hcl : ch.closed with
    | true =>
      have hc : ch.close = none := by simp [Chan.close, hcl]
      exact Or.inr (Or.inl ⟨ch, rfl, hcl, by simp [hc]⟩)
    | false =>
      have hc : ch.close = some { ch with closed := true, waiting := 0 } := by
        simp [Chan.close, hcl]
      exact Or.inr (Or.inr ⟨ch, rfl, hcl, by simp [hc]⟩)

end PowerDNS

namespace PowerDNS

/-! ## Shutdown -/

theorem closeListener_done_closed (c : ProtobufPowerDNS) (l : Listener) :
    (closeListener c l).done.closed = c.done.closed :=
  Chan.wake_closed c.done l.accepting

/-- C1: on a collector with a bound listener, whatever the state of the done
channel, the effects of `Stop` are one close per tracked connection in list
order, then the close of the listener, then what `Stop` does on the done
channel: it is parked in the receive (nothing more), or it has received and
fails in closing a channel that was closed already, or it has received,
closed the channel and returned.  With the channel open and one `Run` parked
in `Accept` or in its send, `Stop` returns: the close of the listener makes
that `Run` leave its loop and send, and `Stop` receives.  With the channel open
and no `Run` there to send, `Stop` stays parked in the receive.  Whenever
`Stop` returns, the receive is in its trace. -/
theorem Stop_effect_order (env : Env) (c : ProtobufPowerDNS) (l : Listener)
    (h : c.listen = some l) :
    (∃ tail,
        effects (Stop env c).trace
          = c.conns.map (fun conn =>
              Event.close conn c.config.PowerDNS.ResetConn (env.connCloseErr conn))
            ++ Event.listenerClose (l.closed || env.listenCloseErr) :: tail
        ∧ (((Stop env c).outcome = Outcome.blockedRecv ∧ tail = [])
          ∨ ((Stop env c).outcome = Outcome.panicCloseClosed ∧ tail = [Event.doneRecv])
          ∨ ((Stop env c).outcome = Outcome.returned
              ∧ tail = [Event.doneRecv, Event.doneClose])))
    ∧ (c.done.closed = false → c.done.waiting = 0 → 0 < l.accepting + c.done.pending →
        (Stop env c).outcome = Outcome.returned
        ∧ effects (Stop env c).trace
          = c.conns.map (fun conn =>
              Event.close conn c.config.PowerDNS.ResetConn (env.connCloseErr conn))
            ++ [Event.listenerClose (l.closed || env.listenCloseErr), Event.doneRecv,
                Event.doneClose])
    ∧ (c.done.closed = false → l.accepting = 0 → c.done.pending = 0 →
        (Stop env c).outcome = Outcome.blockedRecv ∧ Event.doneRecv ∉ (Stop env c).trace)
    ∧ ((Stop env c).outcome = Outcome.returned → Event.doneRecv ∈ (Stop env c).trace) := by
  refine ⟨?_, ?_, ?_, ?_⟩
  · rcases Stop_cases env c l h with ⟨ch, _, hs⟩ | ⟨ch, _, _, hs⟩ | ⟨ch, _, _, hs⟩
    · exact ⟨[], by rw [hs]; simp [effects_stopHead], Or.inl ⟨by rw [hs], rfl⟩⟩
    · refine ⟨[Event.doneRecv], ?_, Or.inr (Or.inl ⟨by rw [hs], rfl⟩)⟩
      rw [hs]
      simp [effects_append, effects_stopHead, effects_cons, effects_nil, Event.isLog]
    · refine ⟨[Event.doneRecv, Event.doneClose], ?_, Or.inr (Or.inr ⟨by rw [hs], rfl⟩)⟩
      rw [hs]
      simp [effects_append, effects_stopHead, effects_cons, effects_nil, Event.isLog]
  · intro hcl hw hp
    have hd : (closeListener c l).done
        = { c.done with pending := c.done.pending + l.accepting } :=
      Chan.wake_open c.done l.accepting hcl hw
    have hr : (closeListener c l).done.recv
        = (true, { c.done with pending := c.done.pending + l.accepting - 1 }) := by
      rw [hd]
      exact Chan.recv_true _ (by simp only; omega)
    rcases Stop_cases env c l h with ⟨ch, hr2, _⟩ | ⟨ch, hr2, hc2, _⟩ | ⟨ch, _, _, hs⟩
    · rw [hr] at hr2; cases hr2
    · rw [hr] at hr2
      cases hr2
      simp [hcl] at hc2
    · rw [hs]
      refine ⟨rfl, ?_⟩
      simp [effects_append, effects_stopHead, effects_cons, effects_nil, Event.isLog]
  · intro hcl ha hp
    have hd : (closeListener c l).done = c.done := by
      simp [closeListener, ha, Chan.wake]
    have hr : (closeListener c l).done.recv
        = (false, { c.done with waiting := c.done.waiting + 1 }) := by
      rw [hd]
      simp [Chan.recv, hp, hcl]
    rcases Stop_cases env c l h with ⟨ch, _, hs⟩ | ⟨ch, hr2, _, _⟩ | ⟨ch, hr2, _, _⟩
    · rw [hs]
      refine ⟨rfl, ?_⟩
      intro hmem
      have : Event.doneRecv ∈ effects (stopHead env c l) := mem_effects.2 ⟨hmem, rfl⟩
      simp [effects_stopHead] at this
    · rw [hr] at hr2; cases hr2
    · rw [hr] at hr2; cases hr2
  · intro ho
    rcases Stop_cases env c l h with ⟨ch, _, hs⟩ | ⟨ch, _, _, hs⟩ | ⟨ch, _, _, hs⟩
    · rw [hs] at ho; cases ho
    · rw [hs] at ho; cases ho
    · rw [hs]; simp

/-- C1, at a collector that tracks two connections and whose `Run` is parked in
`Accept`: the close of the listener releases `Run`, and `Stop` receives and
returns. -/
theorem Stop_effect_order_witness :
    acceptingCollector.listen = some ⟨"127.0.0.1:6001", false, 1⟩
    ∧ (Stop sampleEnv acceptingCollector).outcome = Outcome.returned
    ∧ effects (Stop sampleEnv acceptingCollector).trace
        = [Event.close conn1 false false, Event.close conn2 false false,
           Event.listenerClose false, Event.doneRecv, Event.doneClose] :=
  ⟨rfl, (Stop_effect_order sampleEnv acceptingCollector ⟨"127.0.0.1:6001", false, 1⟩ rfl).2.1
    rfl rfl (by decide)⟩

theorem logs_Stop_bound (env : Env) (c : ProtobufPowerDNS) (l : Listener)
    (h : c.listen = some l) :
    logs (Stop env c).trace
      = LogInfo c "stopping..." []
        :: (c.conns.map (fun conn => LogInfo c "%s - closing connection..." [conn.peer])
            ++ [LogInfo c "stop listening..." []]) := by
  rcases Stop_cases env c l h with ⟨ch, _, hs⟩ | ⟨ch, _, _, hs⟩ | ⟨ch, _, _, hs⟩
  · rw [hs]; exact logs_stopHead env c l
  · rw [hs]
    simp only [logs_append, logs_stopHead]
    simp [logs, Event.isLog]
  · rw [hs]
    simp only [logs_append, logs_stopHead]
    simp [logs, Event.isLog]

theorem isLog_of_isFailureLog {e : Event} (h : e.isFailureLog = true) : e.isLog = true := by
  cases e <;> simp_all [Event.isFailureLog, Event.isLog]

/-- On a bound listener with an open done channel `Stop` parks in the receive
or returns; it does not end in a runtime error. -/
theorem Stop_open_cases (env : Env) (c : ProtobufPowerDNS) (l : Listener)
    (h : c.listen = some l) (hd : c.done.closed = false) :
    ((Stop env c).trace = stopHead env c l ∧ (Stop env c).outcome = Outcome.blockedRecv)
    ∨ ((Stop env c).trace = stopHead env c l ++ [Event.doneRecv] ++ [Event.doneClose]
        ∧ (Stop env c).outcome = Outcome.returned) := by
  rcases Stop_cases env c l h with ⟨ch, _, hs⟩ | ⟨ch, hr, hcl, _⟩ | ⟨ch, _, _, hs⟩
  · exact Or.inl ⟨by rw [hs], by rw [hs]⟩
  · exfalso
    have h1 := Chan.recv_closed (closeListener c l).done
    rw [hr, closeListener_done_closed, hd] at h1
    simp only at h1
    rw [hcl] at h1
    cases h1
  · exact Or.inr ⟨by rw [hs], by rw [hs]⟩

/-- C9, as amended: `Stop` does not raise on a failing close, and it does not
report one either.  On a collector with a bound listener and an open done
channel, whatever the closes of the tracked connections and of the listener
return, the trace of `Stop` is: the info record "stopping..."; then, per
tracked connection in list order, the info record "closing connection..." with
the peer address followed by the close of that connection; then the info
record "stop listening..." followed by the close of the listener; then nothing
but the receive on the done channel and its close.  So the log records are
exactly these, each written before the close it announces, none is at error or
fatal level, and `Stop` either returns or stays parked on the done channel. -/
theorem Stop_logs_ignore_close_errors (env : Env) (c : ProtobufPowerDNS) (l : Listener)
    (h : c.listen = some l) (hd : c.done.closed = false) :
    (∃ tail,
        (Stop env c).trace
          = Event.log Level.info ("[" ++ c.name ++ "] pdns collector - " ++ "stopping...") []
            :: (announcedCloses env c.name c.config.PowerDNS.ResetConn c.conns
                ++ [Event.log Level.info
                      ("[" ++ c.name ++ "] pdns collector - " ++ "stop listening...") [],
                    Event.listenerClose (l.closed || env.listenCloseErr)]
                ++ tail)
        ∧ (tail = [] ∨ tail = [Event.doneRecv, Event.doneClose]))
    ∧ logs (Stop env c).trace
        = Event.log Level.info ("[" ++ c.name ++ "] pdns collector - " ++ "stopping...") []
          :: (c.conns.map (fun conn =>
                Event.log Level.info
                  ("[" ++ c.name ++ "] pdns collector - " ++ "%s - closing connection...")
                  [conn.peer])
              ++ [Event.log Level.info
                    ("[" ++ c.name ++ "] pdns collector - " ++ "stop listening...") []])
    ∧ (∀ e ∈ (Stop env c).trace, e.isFailureLog = false)
    ∧ ((Stop env c).outcome = Outcome.returned
        ∨ (Stop env c).outcome = Outcome.blockedRecv) := by
  have hhead : stopHead env c l
      = Event.log Level.info ("[" ++ c.name ++ "] pdns collector - " ++ "stopping...") []
        :: (announcedCloses env c.name c.config.PowerDNS.ResetConn c.conns
            ++ [Event.log Level.info
                  ("[" ++ c.name ++ "] pdns collector - " ++ "stop listening...") [],
                Event.listenerClose (l.closed || env.listenCloseErr)]) := by
    simp [stopHead, stopConns_eq_announcedCloses, LogInfo]
  have hlogs : logs (Stop env c).trace
      = Event.log Level.info ("[" ++ c.name ++ "] pdns collector - " ++ "stopping...") []
        :: (c.conns.map (fun conn =>
              Event.log Level.info
                ("[" ++ c.name ++ "] pdns collector - " ++ "%s - closing connection...")
                [conn.peer])
            ++ [Event.log Level.info
                  ("[" ++ c.name ++ "] pdns collector - " ++ "stop listening...") []]) := by
    rw [logs_Stop_bound env c l h]
    rfl
  refine ⟨?_, hlogs, ?_, ?_⟩
  · rcases Stop_open_cases env c l h hd with ⟨ht, _⟩ | ⟨ht, _⟩
    · exact ⟨[], by rw [ht, hhead]; simp, Or.inl rfl⟩
    · exact ⟨[Event.doneRecv, Event.doneClose], by rw [ht, hhead]; simp, Or.inr rfl⟩
  · intro e he
    cases hf : e.isFailureLog with
    | false => rfl
    | true =>
      exfalso
      have hl : e ∈ logs (Stop env c).trace := by
        simp only [logs, List.mem_filter]
        exact ⟨he, isLog_of_isFailureLog hf⟩
      rw [hlogs] at hl
      simp only [List.mem_cons, List.mem_append, List.mem_map, List.mem_singleton,
        List.not_mem_nil, or_false] at hl
      rcases hl with rfl | ⟨conn, _, rfl⟩ | rfl <;> simp [Event.isFailureLog] at hf
  · rcases Stop_open_cases env c l h hd with ⟨_, ho⟩ | ⟨_, ho⟩
    · exact Or.inr ho
    · exact Or.inl ho

/-- C9, as amended, at a collector tracking two connections in an environment
where every close fails. -/
theorem Stop_logs_ignore_close_errors_witness :
    ranCollector.listen = some sampleListener ∧ ranCollector.done.closed = false
    ∧ (∀ e ∈ (Stop failingCloseEnv ranCollector).trace, e.isFailureLog = false) :=
  ⟨rfl, rfl,
    (Stop_logs_ignore_close_errors failingCloseEnv ranCollector sampleListener rfl rfl).2.2.1⟩

/-- C9 as stated fails: with a tracked connection whose close fails and a
listener whose close fails, `Stop` returns, both failed closes are in its
trace, and yet it writes no record at error or fatal level; its log records
are the very ones it writes when every close succeeds. -/
theorem Stop_close_errors_unlogged :
    (Stop failingCloseEnv ranCollector).outcome = Outcome.returned
    ∧ Event.close conn1 false true ∈ (Stop failingCloseEnv ranCollector).trace
    ∧ Event.listenerClose true ∈ (Stop failingCloseEnv ranCollector).trace
    ∧ ¬ (∃ e ∈ (Stop failingCloseEnv ranCollector).trace, e.isFailureLog = true)
    ∧ logs (Stop failingCloseEnv ranCollector).trace
        = logs (Stop sampleEnv ranCollector).trace := by
  decide

/-- On a bound listener `Stop` always gets as far as closing the listener. -/
theorem listenerClose_mem_Stop (env : Env) (c : ProtobufPowerDNS) (l : Listener)
    (h : c.listen = some l) :
    Event.listenerClose (l.closed || env.listenCloseErr) ∈ (Stop env c).trace := by
  have hh : Event.listenerClose (l.closed || env.listenCloseErr) ∈ stopHead env c l := by
    simp [stopHead]
  rcases Stop_cases env c l h with ⟨ch, _, hs⟩ | ⟨ch, _, _, hs⟩ | ⟨ch, _, _, hs⟩ <;>
    (rw [hs]; simp [hh])

/-- When `Stop` returns, the listener was bound, the done signal was received
and the channel was closed by this call. -/
theorem Stop_returned_inv (env : Env) (c : ProtobufPowerDNS)
    (h : (Stop env c).outcome = Outcome.returned) :
    ∃ (l : Listener) (ch : Chan), c.listen = some l ∧ ch.closed = false
      ∧ (Stop env c).state
          = { closeListener c l with done := { ch with closed := true, waiting := 0 } } := by
  cases hl : c.listen with
  | none => simp [Stop, hl] at h
  | some l =>
    rcases Stop_cases env c l hl with ⟨ch, _, hs⟩ | ⟨ch, _, _, hs⟩ | ⟨ch, _, hcl, hs⟩
    · rw [hs] at h; cases h
    · rw [hs] at h; cases h
    · exact ⟨l, ch, rfl, hcl, by rw [hs]⟩

/-- C6, as amended: `Stop` is a one-shot operation, not an idempotent one.
After a first `Stop` has returned the done channel is closed; a second call
closes every tracked connection and the listener once more, receives at once
from the closed channel and then ends in the runtime error "close of closed
channel".  The listener and the tracked connection list are as the first call
left them, and the done channel is still closed. -/
theorem Stop_second_call_panics (env env2 : Env) (c : ProtobufPowerDNS)
    (h : (Stop env c).outcome = Outcome.returned) :
    (Stop env2 (Stop env c).state).outcome = Outcome.panicCloseClosed
    ∧ (Stop env2 (Stop env c).state).state.listen = (Stop env c).state.listen
    ∧ (Stop env2 (Stop env c).state).state.conns = (Stop env c).state.conns
    ∧ (Stop env c).state.done.closed = true
    ∧ (Stop env2 (Stop env c).state).state.done.closed = true
    ∧ effects (Stop env2 (Stop env c).state).trace
        = c.conns.map (fun conn =>
            Event.close conn c.config.PowerDNS.ResetConn (env2.connCloseErr conn))
          ++ [Event.listenerClose true, Event.doneRecv] := by
  obtain ⟨l, ch, _, _, hs⟩ := Stop_returned_inv env c h
  rw [hs]
  have hl2 : ({ closeListener c l with done := { ch with closed := true, waiting := 0 } }
      : ProtobufPowerDNS).listen = some { l with closed := true, accepting := 0 } := rfl
  have hcl2 : (closeListener
        ({ closeListener c l with done := { ch with closed := true, waiting := 0 } })
        { l with closed := true, accepting := 0 }).done.closed = true := by
    rw [closeListener_done_closed]
  rcases Stop_cases env2 _ _ hl2 with ⟨ch2, hr, _⟩ | ⟨ch2, hr2, _, hs2⟩ | ⟨ch2, hr, hc2, _⟩
  · exfalso
    have hd : (closeListener
        ({ closeListener c l with done := { ch with closed := true, waiting := 0 } })
        { l with closed := true, accepting := 0 }).done
        = { ch with closed := true, waiting := 0 } := by
      simp [closeListener, Chan.wake]
    rw [hd] at hr
    unfold Chan.recv at hr
    split at hr
    · cases hr
    · simp at hr
  · rw [hs2]
    refine ⟨rfl, rfl, rfl, rfl, ?_, ?_⟩
    · have h1 := Chan.recv_closed (closeListener
        ({ closeListener c l with done := { ch with closed := true, waiting := 0 } })
        { l with closed := true, accepting := 0 }).done
      rw [hr2, hcl2] at h1
      exact h1
    · simp [effects_append, effects_stopHead, effects_cons, effects_nil, Event.isLog,
        closeListener]
  · exfalso
    have h1 := Chan.recv_closed (closeListener
        ({ closeListener c l with done := { ch with closed := true, waiting := 0 } })
        { l with closed := true, accepting := 0 }).done
    rw [hr, hcl2] at h1
    simp only at h1
    rw [hc2] at h1
    cases h1

/-- C6, as amended, at a collector whose `Run` has offered the done signal. -/
theorem Stop_second_call_panics_witness :
    (Stop sampleEnv ranCollector).outcome = Outcome.returned
    ∧ (Stop failingCloseEnv (Stop sampleEnv ranCollector).state).state.conns
        = (Stop sampleEnv ranCollector).state.conns :=
  ⟨by decide, (Stop_second_call_panics sampleEnv failingCloseEnv ranCollector (by decide)).2.2.1⟩

/-- C6 as stated fails: on a collector on which a first `Stop` has returned, a
second `Stop` does not complete; it ends in the runtime error "close of closed
channel". -/
theorem Stop_not_idempotent :
    (Stop sampleEnv ranCollector).outcome = Outcome.returned
    ∧ (Stop sampleEnv (Stop sampleEnv ranCollector).state).outcome
        = Outcome.panicCloseClosed
    ∧ (Stop sampleEnv (Stop sampleEnv ranCollector).state).outcome ≠ Outcome.returned := by
  decide

/-! ## Construction -/

/-- C8: `NewProtobufPowerDNS` ends in `logger.Fatal` exactly when `IsValidTLS`
rejects the configured minimum TLS version label, and returns exactly when it
accepts it; the TLS-support flag has no influence on this; and in either case
the collector has no listener, no tracked connection, an open done channel, and
the construction has produced log records only (no socket was touched). -/
theorem NewProtobufPowerDNS_fails_iff_invalid_tls (env : Env) (loggers : List String)
    (config : Config) (name : String) :
    ((NewProtobufPowerDNS env loggers config name).outcome = Outcome.fatal
        ↔ env.IsValidTLS config.PowerDNS.TlsMinVersion = false)
    ∧ ((NewProtobufPowerDNS env loggers config name).outcome = Outcome.returned
        ↔ env.IsValidTLS config.PowerDNS.TlsMinVersion = true)
    ∧ (∀ tls : Bool,
        (NewProtobufPowerDNS env loggers
            { config with PowerDNS := { config.PowerDNS with TlsSupport := tls } } name).outcome
          = (NewProtobufPowerDNS env loggers config name).outcome)
    ∧ (NewProtobufPowerDNS env loggers config name).state.listen = none
    ∧ (NewProtobufPowerDNS env loggers config name).state.conns = []
    ∧ (NewProtobufPowerDNS env loggers config name).state.done = Chan.make
    ∧ (∀ e ∈ (NewProtobufPowerDNS env loggers config name).trace, e.isLog = true) := by
  refine ⟨?_, ?_, ?_, rfl, rfl, rfl, ?_⟩
  · cases hv : env.IsValidTLS config.PowerDNS.TlsMinVersion <;>
      simp [NewProtobufPowerDNS, ReadConfig, hv]
  · cases hv : env.IsValidTLS config.PowerDNS.TlsMinVersion <;>
      simp [NewProtobufPowerDNS, ReadConfig, hv]
  · intro tls
    simp [NewProtobufPowerDNS, ReadConfig]
  · intro e he
    cases hv : env.IsValidTLS config.PowerDNS.TlsMinVersion <;>
      simp [NewProtobufPowerDNS, ReadConfig, hv] at he
    · rcases he with rfl | rfl <;> rfl
    · subst he; rfl

/-- C7, on the code: a collector that was constructed and on which neither
`Listen` nor `Run` was called has no listener, and `Stop` on it ends in a
runtime error (method call on the nil listener) after the "stop listening..."
record, without closing any listener; on a collector whose `Listen` has bound a
listener, `Stop` before `Run` does close that listener. -/
theorem Stop_before_Run (env env2 : Env) (loggers : List String) (config : Config)
    (name : String)
    (_h : (NewProtobufPowerDNS env loggers config name).outcome = Outcome.returned) :
    (Stop env2 (NewProtobufPowerDNS env loggers config name).state).outcome
        = Outcome.panicNilListener
    ∧ (∀ b, Event.listenerClose b
        ∉ (Stop env2 (NewProtobufPowerDNS env loggers config name).state).trace)
    ∧ (∀ l,
        (Listen env (NewProtobufPowerDNS env loggers config name).state).1.state.listen
            = some l →
        Event.listenerClose env2.listenCloseErr
            ∈ (Stop env2
                (Listen env (NewProtobufPowerDNS env loggers config name).state).1.state).trace
        ∧ (Stop env2
              (Listen env (NewProtobufPowerDNS env loggers config name).state).1.state).state.listen
            = some { l with closed := true }) := by
  refine ⟨rfl, ?_, ?_⟩
  · intro b hb
    simp [Stop, NewProtobufPowerDNS, stopConns, LogInfo] at hb
  · intro l hl
    have hc : l.closed = false ∧ l.accepting = 0 := by
      unfold Listen at hl
      simp only [listenOn] at hl
      split at hl
      · split at hl
        · cases hl
        · split at hl
          · cases hl
          · simp at hl; subst hl; exact ⟨rfl, rfl⟩
      · split at hl
        · cases hl
        · simp at hl; subst hl; exact ⟨rfl, rfl⟩
    constructor
    · have hm := listenerClose_mem_Stop env2 _ l hl
      rw [hc.1] at hm
      simpa using hm
    · have hl2 : some ({ l with closed := true, accepting := 0 } : Listener)
          = some { l with closed := true } := by
        rw [← hc.2]
      rcases Stop_cases env2 _ l hl with ⟨ch, _, hs⟩ | ⟨ch, _, _, hs⟩ | ⟨ch, _, _, hs⟩ <;>
        (rw [hs]; exact hl2)

/-- C7, on the code, at the sample configuration. -/
theorem Stop_before_Run_witness :
    (NewProtobufPowerDNS sampleEnv ["stdout"] sampleConfig "pdns").outcome = Outcome.returned
    ∧ (Stop sampleEnv (NewProtobufPowerDNS sampleEnv ["stdout"] sampleConfig "pdns").state).outcome
        = Outcome.panicNilListener :=
  ⟨by decide, (Stop_before_Run sampleEnv sampleEnv ["stdout"] sampleConfig "pdns" (by decide)).1⟩

/-! ## The accept loop -/

/-- The sample collectors are states the code reaches: `freshCollector` is what
the constructor builds; from it `Run` reaches `acceptingCollector` when two
connections are accepted and it is parked in the third `Accept`, and
`ranCollector` when that third `Accept` fails. -/
theorem sample_collectors_reachable :
    (NewProtobufPowerDNS sampleEnv ["stdout"] sampleConfig "pdns").state = freshCollector
    ∧ (Run sampleEnv freshCollector
        [AcceptResult.conn conn1 none, AcceptResult.conn conn2 none]).state
      = acceptingCollector
    ∧ (Run sampleEnv freshCollector
        [AcceptResult.conn conn1 none, AcceptResult.conn conn2 none, AcceptResult.err]).state
      = ranCollector := by
  decide

theorem effects_acceptedEvents (conns : List Conn) :
    effects (acceptedEvents conns) = acceptedEvents conns := by
  induction conns with
  | nil => rfl
  | cons conn rest ih => simp [acceptedEvents, effects_cons, Event.isLog, ih]

theorem spawned_acceptedEvents (conns : List Conn) : spawned (acceptedEvents conns) = conns := by
  induction conns with
  | nil => rfl
  | cons conn rest ih => simp [acceptedEvents, spawned, ih]

theorem acceptCalls_acceptedEvents (conns : List Conn) :
    acceptCalls (acceptedEvents conns) = conns.map some := by
  induction conns with
  | nil => rfl
  | cons conn rest ih => simp [acceptedEvents, acceptCalls, ih]

theorem doneSend_not_mem_acceptedEvents (conns : List Conn) :
    Event.doneSend ∉ acceptedEvents conns := by
  induction conns with
  | nil => simp [acceptedEvents]
  | cons conn t ih => simp [acceptedEvents, ih]

theorem spawned_append (s t : List Event) : spawned (s ++ t) = spawned s ++ spawned t := by
  induction s with
  | nil => rfl
  | cons e s ih => cases e <;> simp [spawned, ih]

theorem acceptCalls_append (s t : List Event) :
    acceptCalls (s ++ t) = acceptCalls s ++ acceptCalls t := by
  induction s with
  | nil => rfl
  | cons e s ih => cases e <;> simp [acceptCalls, ih]

/-- Without a receive-buffer override, the loop registers and dispatches every
connection accepted before the first error and leaves at that error. -/
theorem acceptLoop_until_err (c : ProtobufPowerDNS) (pre : List (Conn × Option (Int × Int)))
    (rest : List AcceptResult) (hr : c.config.Dnstap.RcvBufSize ≤ 0) :
    acceptLoop c (okScript pre ++ AcceptResult.err :: rest)
      = ⟨{ c with conns := c.conns ++ pre.map Prod.fst },
          acceptedEvents (pre.map Prod.fst) ++ [Event.accept none], Outcome.returned⟩ := by
  induction pre generalizing c with
  | nil => simp [okScript, acceptLoop, acceptedEvents]
  | cons p pre ih =>
    have hn : ¬ (c.config.Dnstap.RcvBufSize > 0) := by omega
    have ih2 := ih { c with conns := c.conns ++ [p.1] } hr
    simp only [okScript] at ih2
    simp [okScript, acceptLoop, hn, ih2, acceptedEvents]

/-- Without a receive-buffer override and without an accept error, the loop is
never left: the goroutine ends up parked in `Accept`. -/
theorem acceptLoop_no_err (c : ProtobufPowerDNS) (pre : List (Conn × Option (Int × Int)))
    (hr : c.config.Dnstap.RcvBufSize ≤ 0) :
    acceptLoop c (okScript pre)
      = ⟨{ c with conns := c.conns ++ pre.map Prod.fst,
                  listen := c.listen.map (fun l => { l with accepting := l.accepting + 1 }) },
          acceptedEvents (pre.map Prod.fst), Outcome.blockedAccept⟩ := by
  induction pre generalizing c with
  | nil => simp [okScript, acceptLoop, acceptedEvents]
  | cons p pre ih =>
    have hn : ¬ (c.config.Dnstap.RcvBufSize > 0) := by omega
    have ih2 := ih { c with conns := c.conns ++ [p.1] } hr
    simp only [okScript] at ih2
    simp [okScript, acceptLoop, hn, ih2, acceptedEvents]

/-- With the done channel open, no other receiver parked on it, and a sender
parked in `Accept` or in its send, `Stop` receives and returns. -/
theorem Stop_released (env : Env) (c : ProtobufPowerDNS) (l : Listener)
    (h : c.listen = some l) (hcl : c.done.closed = false) (hw : c.done.waiting = 0)
    (hp : 0 < l.accepting + c.done.pending) :
    (Stop env c).outcome = Outcome.returned ∧ Event.doneRecv ∈ (Stop env c).trace := by
  have hd : (closeListener c l).done
      = { c.done with pending := c.done.pending + l.accepting } :=
    Chan.wake_open c.done l.accepting hcl hw
  have hr : (closeListener c l).done.recv
      = (true, { c.done with pending := c.done.pending + l.accepting - 1 }) := by
    rw [hd]
    exact Chan.recv_true _ (by simp only; omega)
  rcases Stop_cases env c l h with ⟨ch, hr2, _⟩ | ⟨ch, hr2, hc2, _⟩ | ⟨ch, _, _, hs⟩
  · rw [hr] at hr2; cases hr2
  · rw [hr] at hr2
    cases hr2
    simp [hcl] at hc2
  · rw [hs]
    exact ⟨rfl, by simp⟩

/-- The two views of a `Run` that `Stop` shuts down agree.  Whether `Run` is
taken up to where it is parked in `Accept` and `Stop` releases it by closing
the listener, or the failing `Accept` is part of the script and `Run` is parked
in its send when `Stop` is called, `Stop` returns and leaves the same collector
state. -/
theorem Stop_after_Run_views_agree (env envStop : Env) (c : ProtobufPowerDNS) (l : Listener)
    (pre : List (Conn × Option (Int × Int))) (rest : List AcceptResult)
    (hl : c.listen = some l) (hr : c.config.Dnstap.RcvBufSize ≤ 0)
    (hd : c.done.closed = false) (hw : c.done.waiting = 0) :
    (Stop envStop (Run env c (okScript pre)).state).outcome = Outcome.returned
    ∧ (Stop envStop (Run env c (okScript pre ++ AcceptResult.err :: rest)).state).outcome
        = Outcome.returned
    ∧ (Stop envStop (Run env c (okScript pre)).state).state
        = (Stop envStop (Run env c (okScript pre ++ AcceptResult.err :: rest)).state).state := by
  have hs : c.done.send = some (false, { c.done with pending := c.done.pending + 1 }) := by
    simp [Chan.send, hd, hw]
  have e1 : (Run env c (okScript pre ++ AcceptResult.err :: rest)).state
      = { c with conns := c.conns ++ pre.map Prod.fst,
                 done := { c.done with pending := c.done.pending + 1 } } := by
    simp [Run, hl, runLoop, acceptLoop_until_err c pre rest hr, hs]
  have e2 : (Run env c (okScript pre)).state
      = { c with conns := c.conns ++ pre.map Prod.fst,
                 listen := some { l with accepting := l.accepting + 1 } } := by
    simp [Run, hl, runLoop, acceptLoop_no_err c pre hr]
  rw [e1, e2]
  have final : ∀ (s : ProtobufPowerDNS) (m : Listener), s.listen = some m →
      s.done.closed = false → s.done.waiting = 0 → 0 < m.accepting + s.done.pending →
      (Stop envStop s).outcome = Outcome.returned
      ∧ (Stop envStop s).state
        = { s with listen := some { m with closed := true, accepting := 0 },
                   done := ⟨true, s.done.pending + m.accepting - 1, 0⟩ } := by
    intro s m hm hcl hw0 hp
    have hd2 : (closeListener s m).done
        = { s.done with pending := s.done.pending + m.accepting } :=
      Chan.wake_open s.done m.accepting hcl hw0
    have hr2 : (closeListener s m).done.recv
        = (true, { s.done with pending := s.done.pending + m.accepting - 1 }) := by
      rw [hd2]
      exact Chan.recv_true _ (by simp only; omega)
    rcases Stop_cases envStop s m hm with ⟨ch, h1, _⟩ | ⟨ch, h1, h2, _⟩ | ⟨ch, h1, _, h3⟩
    · rw [hr2] at h1; cases h1
    · rw [hr2] at h1
      cases h1
      simp [hcl] at h2
    · rw [hr2] at h1
      cases h1
      rw [h3]
      refine ⟨rfl, ?_⟩
      simp [closeListener, hw0]
  obtain ⟨a1, a2⟩ := final
    { c with conns := c.conns ++ pre.map Prod.fst,
             listen := some { l with accepting := l.accepting + 1 } }
    { l with accepting := l.accepting + 1 } rfl hd hw (by simp only; omega)
  obtain ⟨b1, b2⟩ := final
    { c with conns := c.conns ++ pre.map Prod.fst,
             done := { c.done with pending := c.done.pending + 1 } }
    l hl hd hw (by simp only; omega)
  refine ⟨a1, b1, ?_⟩
  rw [a2, b2]
  simp only [ProtobufPowerDNS.mk.injEq, Chan.mk.injEq, true_and, and_true]
  omega

/-- C2, as amended: on a collector with a bound listener and no receive-buffer
override, for every script in which the connections of `pre` are accepted and
the next `Accept` fails, `Run` leaves the accept loop at that first failing
`Accept` (what the script holds after it is not consumed); the tracked list has
grown by exactly the connections of `pre`, in acceptance order, and exactly one
worker was dispatched for each of them, in that order.  Provided the done
channel has not been closed by a completed `Stop`, `Run` then sends on the done
channel exactly once, as its last effect: with no receiver on the channel `Run`
stays parked in that send, and a `Stop` called then receives the signal and
returns; with a `Stop` already parked in its receive the send completes and
`Run` returns.  When no `Accept` fails, `Run` stays parked in `Accept` with the
same registrations and has not sent. -/
theorem Run_accept_loop (env : Env) (c : ProtobufPowerDNS) (l : Listener)
    (pre : List (Conn × Option (Int × Int))) (rest : List AcceptResult)
    (hl : c.listen = some l) (hr : c.config.Dnstap.RcvBufSize ≤ 0) :
    (Run env c (okScript pre ++ AcceptResult.err :: rest)).state.conns
        = c.conns ++ pre.map Prod.fst
    ∧ spawned (Run env c (okScript pre ++ AcceptResult.err :: rest)).trace = pre.map Prod.fst
    ∧ acceptCalls (Run env c (okScript pre ++ AcceptResult.err :: rest)).trace
        = pre.map (fun p => some p.1) ++ [none]
    ∧ (c.done.closed = false →
        effects (Run env c (okScript pre ++ AcceptResult.err :: rest)).trace
            = acceptedEvents (pre.map Prod.fst) ++ [Event.accept none, Event.doneSend]
        ∧ (Run env c (okScript pre ++ AcceptResult.err :: rest)).trace.count Event.doneSend = 1
        ∧ (c.done.waiting = 0 →
            (Run env c (okScript pre ++ AcceptResult.err :: rest)).outcome
                = Outcome.blockedSend
            ∧ (Run env c (okScript pre ++ AcceptResult.err :: rest)).state.done
                = { c.done with pending := c.done.pending + 1 }
            ∧ (Stop env (Run env c (okScript pre ++ AcceptResult.err :: rest)).state).outcome
                = Outcome.returned
            ∧ Event.doneRecv
                ∈ (Stop env (Run env c (okScript pre ++ AcceptResult.err :: rest)).state).trace)
        ∧ (0 < c.done.waiting →
            (Run env c (okScript pre ++ AcceptResult.err :: rest)).outcome = Outcome.returned
            ∧ (Run env c (okScript pre ++ AcceptResult.err :: rest)).state.done
                = { c.done with waiting := c.done.waiting - 1 }))
    ∧ (Run env c (okScript pre)).outcome = Outcome.blockedAccept
    ∧ (Run env c (okScript pre)).state.conns = c.conns ++ pre.map Prod.fst
    ∧ (Run env c (okScript pre)).state.listen = some { l with accepting := l.accepting + 1 }
    ∧ Event.doneSend ∉ (Run env c (okScript pre)).trace := by
  have e2 : Run env c (okScript pre)
      = ⟨{ c with conns := c.conns ++ pre.map Prod.fst,
                  listen := some { l with accepting := l.accepting + 1 } },
          [LogInfo c "starting collector..." []] ++ acceptedEvents (pre.map Prod.fst),
          Outcome.blockedAccept⟩ := by
    simp [Run, hl, runLoop, acceptLoop_no_err c pre hr]
  have hloop := acceptLoop_until_err c pre rest hr
  have htr : ∀ x, x = (Run env c (okScript pre ++ AcceptResult.err :: rest)) →
      x.state.conns = c.conns ++ pre.map Prod.fst
      ∧ spawned x.trace = pre.map Prod.fst
      ∧ acceptCalls x.trace = pre.map (fun p => some p.1) ++ [none] := by
    intro x hx
    subst hx
    cases hs : c.done.send with
    | none =>
      have e1 : Run env c (okScript pre ++ AcceptResult.err :: rest)
          = ⟨{ c with conns := c.conns ++ pre.map Prod.fst },
              [LogInfo c "starting collector..." []]
                ++ (acceptedEvents (pre.map Prod.fst) ++ [Event.accept none])
                ++ [LogInfo c "run terminated" []], Outcome.panicSendClosed⟩ := by
        simp [Run, hl, runLoop, hloop, hs]
      rw [e1]
      refine ⟨rfl, ?_, ?_⟩
      · simp [spawned_append, spawned_acceptedEvents, spawned, LogInfo]
      · simp [acceptCalls_append, acceptCalls_acceptedEvents, acceptCalls, LogInfo,
          List.map_map, Function.comp_def]
    | some r =>
      obtain ⟨b, ch⟩ := r
      have htrace : (Run env c (okScript pre ++ AcceptResult.err :: rest)).trace
            = [LogInfo c "starting collector..." []]
              ++ (acceptedEvents (pre.map Prod.fst) ++ [Event.accept none])
              ++ [LogInfo c "run terminated" []] ++ [Event.doneSend]
          ∧ (Run env c (okScript pre ++ AcceptResult.err :: rest)).state.conns
            = c.conns ++ pre.map Prod.fst := by
        cases b <;> simp [Run, hl, runLoop, hloop, hs]
      rw [htrace.1, htrace.2]
      refine ⟨rfl, ?_, ?_⟩
      · simp [spawned_append, spawned_acceptedEvents, spawned, LogInfo]
      · simp [acceptCalls_append, acceptCalls_acceptedEvents, acceptCalls, LogInfo,
          List.map_map, Function.comp_def]
  obtain ⟨t1, t2, t3⟩ := htr _ rfl
  refine ⟨t1, t2, t3, ?_, ?_⟩
  · intro hd
    have htrace : ∀ b ch, c.done.send = some (b, ch) →
        Run env c (okScript pre ++ AcceptResult.err :: rest)
          = ⟨{ c with conns := c.conns ++ pre.map Prod.fst, done := ch },
              [LogInfo c "starting collector..." []]
                ++ (acceptedEvents (pre.map Prod.fst) ++ [Event.accept none])
                ++ [LogInfo c "run terminated" []] ++ [Event.doneSend],
              if b then Outcome.returned else Outcome.blockedSend⟩ := by
      intro b ch hs
      cases b <;> simp [Run, hl, runLoop, hloop, hs]
    have hfacts : ∀ b ch, c.done.send = some (b, ch) →
        effects (Run env c (okScript pre ++ AcceptResult.err :: rest)).trace
            = acceptedEvents (pre.map Prod.fst) ++ [Event.accept none, Event.doneSend]
        ∧ (Run env c (okScript pre ++ AcceptResult.err :: rest)).trace.count Event.doneSend
            = 1 := by
      intro b ch hs
      rw [htrace b ch hs]
      constructor
      · simp [effects_append, effects_acceptedEvents, effects_cons, effects_nil, LogInfo,
          Event.isLog]
      · simp [List.count_append,
          List.count_eq_zero_of_not_mem (doneSend_not_mem_acceptedEvents _), LogInfo]
    by_cases hw : 0 < c.done.waiting
    · have hs : c.done.send = some (true, { c.done with waiting := c.done.waiting - 1 }) := by
        simp [Chan.send, hd, hw]
      refine ⟨(hfacts _ _ hs).1, (hfacts _ _ hs).2, ?_, ?_⟩
      · intro h0; omega
      · intro _
        rw [htrace _ _ hs]
        exact ⟨rfl, rfl⟩
    · have hw0 : c.done.waiting = 0 := by omega
      have hs : c.done.send = some (false, { c.done with pending := c.done.pending + 1 }) := by
        simp [Chan.send, hd, hw0]
      refine ⟨(hfacts _ _ hs).1, (hfacts _ _ hs).2, ?_, ?_⟩
      · intro _
        have hstop := Stop_released env
          (Run env c (okScript pre ++ AcceptResult.err :: rest)).state l
          (by rw [htrace _ _ hs]; exact hl)
          (by rw [htrace _ _ hs]; exact hd)
          (by rw [htrace _ _ hs]; exact hw0)
          (by rw [htrace _ _ hs]; simp only; omega)
        refine ⟨?_, ?_, hstop.1, hstop.2⟩
        · rw [htrace _ _ hs]; rfl
        · rw [htrace _ _ hs]
      · intro h0; omega
  · rw [e2]
    refine ⟨rfl, rfl, rfl, ?_⟩
    simp [doneSend_not_mem_acceptedEvents, LogInfo]

/-- C2, as amended, at a listening collector that accepts two connections
before `Accept` fails; the third entry of the script is never reached. -/
theorem Run_accept_loop_witness :
    listeningCollector.listen = some sampleListener
    ∧ listeningCollector.config.Dnstap.RcvBufSize ≤ 0
    ∧ (Run sampleEnv listeningCollector
        (okScript [(conn1, none), (conn2, none)] ++ AcceptResult.err
          :: [AcceptResult.conn conn3 none])).state.conns
        = listeningCollector.conns ++ [conn1, conn2] :=
  ⟨rfl, by decide,
    (Run_accept_loop sampleEnv listeningCollector sampleListener [(conn1, none), (conn2, none)]
      [AcceptResult.conn conn3 none] rfl (by decide)).1⟩

/-- C2 as stated fails on a collector whose done channel a completed `Stop`
has closed.  `Stop` has returned on `ranCollector` and `Listen` has bound a
listener again; `Run` on that collector accepts a connection, registers it and
dispatches its worker, leaves the loop at the failing `Accept`, and then its
send on the closed done channel is a runtime error: no completion signal is
sent. -/
theorem Run_after_Stop_panics :
    (Stop sampleEnv ranCollector).outcome = Outcome.returned
    ∧ reboundCollector.listen = some sampleListener
    ∧ reboundCollector.config.Dnstap.RcvBufSize ≤ 0
    ∧ reboundCollector.done.closed = true
    ∧ spawned (Run sampleEnv reboundCollector
        [AcceptResult.conn conn3 none, AcceptResult.err]).trace = [conn3]
    ∧ (Run sampleEnv reboundCollector
        [AcceptResult.conn conn3 none, AcceptResult.err]).outcome = Outcome.panicSendClosed
    ∧ (Run sampleEnv reboundCollector
        [AcceptResult.conn conn3 none, AcceptResult.err]).trace.count Event.doneSend ≠ 1 := by
  decide

theorem tunedEvents_conns (c : ProtobufPowerDNS) (conns : List Conn)
    (pre : List (Conn × (Int × Int))) :
    tunedEvents { c with conns := conns } pre = tunedEvents c pre := by
  induction pre with
  | nil => rfl
  | cons p pre ih => simp [tunedEvents, LogInfo, ih]

theorem spawned_tunedEvents (c : ProtobufPowerDNS) (pre : List (Conn × (Int × Int))) :
    spawned (tunedEvents c pre) = pre.map Prod.fst := by
  induction pre with
  | nil => rfl
  | cons p pre ih => simp [tunedEvents, spawned, LogInfo, ih]

theorem acceptCalls_tunedEvents (c : ProtobufPowerDNS) (pre : List (Conn × (Int × Int))) :
    acceptCalls (tunedEvents c pre) = pre.map (fun p => some p.1) := by
  induction pre with
  | nil => rfl
  | cons p pre ih => simp [tunedEvents, acceptCalls, LogInfo, ih]

theorem doneSend_not_mem_tunedEvents (c : ProtobufPowerDNS)
    (pre : List (Conn × (Int × Int))) : Event.doneSend ∉ tunedEvents c pre := by
  induction pre with
  | nil => simp [tunedEvents]
  | cons p pre ih => simp [tunedEvents, LogInfo, ih]

/-- With a receive-buffer override, the loop ends in `logger.Fatal` at the
first connection on which the override cannot be applied. -/
theorem acceptLoop_rcvbuf_failure (c : ProtobufPowerDNS) (pre : List (Conn × (Int × Int)))
    (conn : Conn) (rest : List AcceptResult) (hr : 0 < c.config.Dnstap.RcvBufSize) :
    acceptLoop c (tunedScript pre ++ AcceptResult.conn conn none :: rest)
      = ⟨{ c with conns := c.conns ++ pre.map Prod.fst },
          tunedEvents c pre
            ++ [Event.accept (some conn),
                Event.setRcvBuf conn c.config.Dnstap.RcvBufSize c.config.Dnstap.TlsSupport false,
                Event.log Level.fatal "Unable to set SO_RCVBUF: " ["err"]],
          Outcome.fatal⟩ := by
  induction pre generalizing c with
  | nil => simp [tunedScript, acceptLoop, tunedEvents, hr]
  | cons p pre ih =>
    have ih2 := ih { c with conns := c.conns ++ [p.1] } hr
    simp only [tunedScript] at ih2
    simp [tunedScript, acceptLoop, hr, ih2, tunedEvents, tunedEvents_conns, LogInfo]

/-- C5, as amended: when a receive-buffer override is configured
(`RcvBufSize > 0`) and applying it fails on an accepted connection, `Run` ends
the process through `logger.Fatal`: the failure is the last record written, at
fatal level; the connection is neither registered nor given a worker (the
tracked list and the dispatched workers are exactly those of the connections
accepted and tuned before); no further `Accept` is made and the done channel is
not signalled. -/
theorem Run_rcvbuf_failure_is_fatal (env : Env) (c : ProtobufPowerDNS) (l : Listener)
    (pre : List (Conn × (Int × Int))) (conn : Conn) (rest : List AcceptResult)
    (hl : c.listen = some l) (hr : 0 < c.config.Dnstap.RcvBufSize) :
    (Run env c (tunedScript pre ++ AcceptResult.conn conn none :: rest)).outcome
        = Outcome.fatal
    ∧ (Run env c (tunedScript pre ++ AcceptResult.conn conn none :: rest)).state.conns
        = c.conns ++ pre.map Prod.fst
    ∧ spawned (Run env c (tunedScript pre ++ AcceptResult.conn conn none :: rest)).trace
        = pre.map Prod.fst
    ∧ acceptCalls (Run env c (tunedScript pre ++ AcceptResult.conn conn none :: rest)).trace
        = pre.map (fun p => some p.1) ++ [some conn]
    ∧ (Run env c (tunedScript pre ++ AcceptResult.conn conn none :: rest)).trace.getLast?
        = some (Event.log Level.fatal "Unable to set SO_RCVBUF: " ["err"])
    ∧ Event.doneSend
        ∉ (Run env c (tunedScript pre ++ AcceptResult.conn conn none :: rest)).trace := by
  have e1 : Run env c (tunedScript pre ++ AcceptResult.conn conn none :: rest)
      = ⟨{ c with conns := c.conns ++ pre.map Prod.fst },
          [LogInfo c "starting collector..." []]
            ++ (tunedEvents c pre
              ++ [Event.accept (some conn),
                  Event.setRcvBuf conn c.config.Dnstap.RcvBufSize
                    c.config.Dnstap.TlsSupport false,
                  Event.log Level.fatal "Unable to set SO_RCVBUF: " ["err"]]),
          Outcome.fatal⟩ := by
    simp [Run, hl, runLoop, acceptLoop_rcvbuf_failure c pre conn rest hr]
  rw [e1]
  refine ⟨rfl, rfl, ?_, ?_, ?_, ?_⟩
  · simp [spawned_append, spawned_tunedEvents, spawned, LogInfo]
  · simp [acceptCalls_append, acceptCalls_tunedEvents, acceptCalls, LogInfo]
  · have hsplit : ([LogInfo c "starting collector..." []]
          ++ (tunedEvents c pre
            ++ [Event.accept (some conn),
                Event.setRcvBuf conn c.config.Dnstap.RcvBufSize
                  c.config.Dnstap.TlsSupport false,
                Event.log Level.fatal "Unable to set SO_RCVBUF: " ["err"]]))
        = ([LogInfo c "starting collector..." []]
            ++ (tunedEvents c pre
              ++ [Event.accept (some conn),
                  Event.setRcvBuf conn c.config.Dnstap.RcvBufSize
                    c.config.Dnstap.TlsSupport false]))
          ++ [Event.log Level.fatal "Unable to set SO_RCVBUF: " ["err"]] := by
      simp
    simp only [hsplit, List.getLast?_concat]
  · simp [doneSend_not_mem_tunedEvents, LogInfo]

/-- C5, as amended, at a collector with an override of 4096 bytes: the first
connection is tuned, the second is not. -/
theorem Run_rcvbuf_failure_is_fatal_witness :
    rcvBufCollector.listen = some sampleListener
    ∧ 0 < rcvBufCollector.config.Dnstap.RcvBufSize
    ∧ (Run sampleEnv rcvBufCollector
        (tunedScript [(conn1, (1024, 4096))] ++ AcceptResult.conn conn2 none
          :: [AcceptResult.err])).outcome = Outcome.fatal :=
  ⟨rfl, by decide,
    (Run_rcvbuf_failure_is_fatal sampleEnv rcvBufCollector sampleListener [(conn1, (1024, 4096))]
      conn2 [AcceptResult.err] rfl (by decide)).1⟩

/-- C5 as stated fails: with an override of 4096 bytes configured, a first
accepted connection on which the override cannot be applied ends `Run` in
`logger.Fatal`; that connection is not registered, gets no worker, and the
second entry of the script is never accepted. -/
theorem Run_rcvbuf_failure_aborts :
    (Run sampleEnv rcvBufCollector
        [AcceptResult.conn conn1 none, AcceptResult.conn conn2 (some (1024, 4096)),
         AcceptResult.err]).outcome = Outcome.fatal
    ∧ conn1 ∉ (Run sampleEnv rcvBufCollector
        [AcceptResult.conn conn1 none, AcceptResult.conn conn2 (some (1024, 4096)),
         AcceptResult.err]).state.conns
    ∧ Event.goHandleConn conn1 ∉ (Run sampleEnv rcvBufCollector
        [AcceptResult.conn conn1 none, AcceptResult.conn conn2 (some (1024, 4096)),
         AcceptResult.err]).trace
    ∧ acceptCalls (Run sampleEnv rcvBufCollector
        [AcceptResult.conn conn1 none, AcceptResult.conn conn2 (some (1024, 4096)),
         AcceptResult.err]).trace = [some conn1] := by
  decide

/-! ## Connection workers -/

/-- C3: for every connection and both ways stream processing can end,
`HandleConn` closes the connection exactly once, as its last effect and after
stream processing.  Its log records are the info record "new connection" with
the remote peer address as argument, then, after a transport error only, the
error record "transport error" with that error, then the info record
"connection closed" with the remote peer address as argument; so there is
exactly one connection-open and one connection-close record, and both carry
the peer address. -/
theorem HandleConn_closes_once (env : Env) (c : ProtobufPowerDNS) (conn : Conn)
    (stream : Option String) :
    (HandleConn env c conn stream).filter Event.isClose
        = [Event.close conn false (env.connCloseErr conn)]
    ∧ (∃ pre mid,
        HandleConn env c conn stream
          = pre ++ Event.processStream conn stream :: mid
              ++ [Event.close conn false (env.connCloseErr conn)]
        ∧ (∀ e ∈ pre ++ mid, e.isClose = false))
    ∧ (HandleConn env c conn stream).filter Event.isInfoLog
        = [Event.log Level.info
            ("[" ++ c.name ++ "] pdns collector - " ++ "%s - new connection\n") [conn.peer],
           Event.log Level.info
            ("[" ++ c.name ++ "] pdns collector - " ++ "%s - connection closed\n") [conn.peer]]
    ∧ logs (HandleConn env c conn stream)
        = Event.log Level.info
            ("[" ++ c.name ++ "] pdns collector - " ++ "%s - new connection\n") [conn.peer]
          :: ((match stream with
                | some err =>
                  [Event.log Level.error
                    ("[" ++ c.name ++ "] pdns collector - " ++ "transport error: %s") [err]]
                | none => [])
              ++ [Event.log Level.info
                    ("[" ++ c.name ++ "] pdns collector - " ++ "%s - connection closed\n")
                    [conn.peer]]) := by
  cases stream with
  | none =>
    refine ⟨by simp [HandleConn, LogInfo, Event.isClose, List.filter_cons], ?_,
      by simp [HandleConn, LogInfo, Event.isInfoLog, List.filter_cons],
      by simp [HandleConn, LogInfo, logs, Event.isLog, List.filter_cons]⟩
    refine ⟨[LogInfo c "%s - new connection\n" [conn.peer], Event.newProcessor,
      Event.goProcessorRun (Loggers c).length],
      [LogInfo c "%s - connection closed\n" [conn.peer]], by simp [HandleConn], ?_⟩
    intro e he
    simp at he
    rcases he with rfl | rfl | rfl | rfl <;> rfl
  | some err =>
    refine ⟨by simp [HandleConn, LogInfo, LogError, Event.isClose, List.filter_cons], ?_,
      by simp [HandleConn, LogInfo, LogError, Event.isInfoLog, List.filter_cons],
      by simp [HandleConn, LogInfo, LogError, logs, Event.isLog, List.filter_cons]⟩
    refine ⟨[LogInfo c "%s - new connection\n" [conn.peer], Event.newProcessor,
      Event.goProcessorRun (Loggers c).length],
      [LogError c "transport error: %s" [err],
       LogInfo c "%s - connection closed\n" [conn.peer]], by simp [HandleConn], ?_⟩
    intro e he
    simp at he
    rcases he with rfl | rfl | rfl | rfl | rfl <;> rfl

/-! ## Closes of an accepted socket over one life of the collector -/

theorem closeCount_nil (conn : Conn) : closeCount conn [] = 0 := rfl

theorem closeCount_append (conn : Conn) (s t : List Event) :
    closeCount conn (s ++ t) = closeCount conn s + closeCount conn t := by
  simp [closeCount]

theorem closeCount_cons (conn : Conn) (e : Event) (t : List Event) :
    closeCount conn (e :: t) = closeCount conn [e] + closeCount conn t :=
  closeCount_append conn [e] t

theorem closeCount_perm (conn : Conn) {s t : List Event} (h : List.Perm s t) :
    closeCount conn s = closeCount conn t :=
  (h.filter _).length_eq

theorem closeCount_of_isClose_false (conn : Conn) (t : List Event)
    (h : ∀ e ∈ t, e.isClose = false) : closeCount conn t = 0 := by
  induction t with
  | nil => rfl
  | cons e t ih =>
    rw [closeCount_cons, ih (fun x hx => h x (List.mem_cons_of_mem _ hx))]
    have he := h e (List.mem_cons_self _ _)
    cases e <;> simp_all [closeCount, Event.isClose]

theorem closeCount_HandleConn (env : Env) (c : ProtobufPowerDNS) (conn x : Conn)
    (stream : Option String) :
    closeCount conn (HandleConn env c x stream) = if x = conn then 1 else 0 := by
  cases stream <;> by_cases hx : x = conn <;>
    simp [HandleConn, closeCount, LogInfo, LogError, List.filter_cons, hx]

theorem closeCount_workers (env : Env) (c : ProtobufPowerDNS) (stream : Conn → Option String)
    (conn : Conn) (conns : List Conn) :
    closeCount conn (workers env c stream conns) = conns.count conn := by
  induction conns with
  | nil => rfl
  | cons x rest ih =>
    rw [workers, closeCount_append, closeCount_HandleConn, ih, List.count_cons]
    by_cases hx : x = conn <;> simp [hx, Nat.add_comm]

theorem closeCount_stopConns (env : Env) (c : ProtobufPowerDNS) (conn : Conn)
    (conns : List Conn) :
    closeCount conn (stopConns env c conns) = conns.count conn := by
  induction conns with
  | nil => rfl
  | cons x rest ih =>
    rw [stopConns, closeCount_cons, netlib.Close, closeCount_append, ih, List.count_cons]
    by_cases hx : x = conn <;> simp [closeCount, LogInfo, hx, Nat.add_comm]

/-- Method `Stop` closes every tracked connection once per occurrence in the list,
whether or not it gets as far as the listener. -/
theorem closeCount_Stop (env : Env) (c : ProtobufPowerDNS) (conn : Conn) :
    closeCount conn (Stop env c).trace = c.conns.count conn := by
  have hhead : ∀ l, closeCount conn (stopHead env c l) = c.conns.count conn := by
    intro l
    rw [stopHead, closeCount_append, closeCount_append, closeCount_append,
      closeCount_stopConns]
    simp [closeCount, LogInfo]
  cases hl : c.listen with
  | none =>
    have ht : (Stop env c).trace
        = [LogInfo c "stopping..." []] ++ stopConns env c c.conns
          ++ [LogInfo c "stop listening..." []] := by
      simp [Stop, hl]
    rw [ht, closeCount_append, closeCount_append, closeCount_stopConns]
    simp [closeCount, LogInfo]
  | some l =>
    rcases Stop_cases env c l hl with ⟨ch, _, hs⟩ | ⟨ch, _, _, hs⟩ | ⟨ch, _, _, hs⟩
    · rw [hs]; exact hhead l
    · rw [hs]
      simp only [closeCount_append, hhead]
      simp [closeCount]
    · rw [hs]
      simp only [closeCount_append, hhead]
      simp [closeCount]

/-- The accept loop registers exactly the connections it dispatches a worker
for, and closes nothing itself. -/
theorem acceptLoop_registers (c : ProtobufPowerDNS) (accepts : List AcceptResult) :
    (acceptLoop c accepts).state.conns = c.conns ++ spawned (acceptLoop c accepts).trace
    ∧ (∀ e ∈ (acceptLoop c accepts).trace, e.isClose = false) := by
  induction accepts generalizing c with
  | nil => simp [acceptLoop, spawned]
  | cons a rest ih =>
    cases a with
    | err => simp [acceptLoop, spawned, Event.isClose]
    | conn x rcvBuf =>
      obtain ⟨h1, h2⟩ := ih { c with conns := c.conns ++ [x] }
      by_cases hr : c.config.Dnstap.RcvBufSize > 0
      · cases rcvBuf with
        | none => simp [acceptLoop, hr, spawned, Event.isClose]
        | some ba =>
          obtain ⟨before, actual⟩ := ba
          simp only [acceptLoop, hr, if_true]
          refine ⟨?_, ?_⟩
          · rw [h1]; simp [spawned, LogInfo]
          · intro e he
            simp only [List.cons_append, List.nil_append, List.mem_cons] at he
            rcases he with rfl | rfl | rfl | rfl | he
            · rfl
            · rfl
            · rfl
            · rfl
            · exact h2 e he
      · simp only [acceptLoop, hr, if_false]
        refine ⟨?_, ?_⟩
        · rw [h1]; simp [spawned]
        · intro e he
          simp only [List.cons_append, List.nil_append, List.mem_cons] at he
          rcases he with rfl | rfl | he
          · rfl
          · rfl
          · exact h2 e he

theorem Listen_registers (env : Env) (c : ProtobufPowerDNS) :
    (Listen env c).1.state.conns = c.conns
    ∧ spawned (Listen env c).1.trace = []
    ∧ (∀ e ∈ (Listen env c).1.trace, e.isClose = false) := by
  unfold Listen listenOn
  by_cases htls : c.config.PowerDNS.TlsSupport = true
  · by_cases hk : env.loadKeyPair c.config.PowerDNS.CertFile c.config.PowerDNS.KeyFile = true
    · by_cases hb : env.listenOk
          (c.config.PowerDNS.ListenIP ++ ":" ++ toString c.config.PowerDNS.ListenPort) = true
      · simp [htls, hk, hb, spawned, LogInfo, Event.isClose]
      · simp [htls, hk, hb, spawned, LogInfo, Event.isClose]
    · simp [htls, hk, spawned, LogInfo, Event.isClose]
  · by_cases hb : env.listenOk
        (c.config.PowerDNS.ListenIP ++ ":" ++ toString c.config.PowerDNS.ListenPort) = true
    · simp [htls, hb, spawned, LogInfo, Event.isClose]
    · simp [htls, hb, spawned, LogInfo, Event.isClose]

theorem runLoop_registers (c : ProtobufPowerDNS) (t : List Event)
    (accepts : List AcceptResult) :
    (runLoop c t accepts).state.conns
        = c.conns ++ spawned (acceptLoop c accepts).trace
    ∧ spawned (runLoop c t accepts).trace = spawned t ++ spawned (acceptLoop c accepts).trace
    ∧ ((∀ e ∈ t, e.isClose = false) → ∀ e ∈ (runLoop c t accepts).trace, e.isClose = false) := by
  obtain ⟨h1, h2⟩ := acceptLoop_registers c accepts
  have hsent : ∀ (st : ProtobufPowerDNS) (o : Outcome),
      (st.conns = (acceptLoop c accepts).state.conns) →
      (⟨st, t ++ (acceptLoop c accepts).trace ++ [LogInfo c "run terminated" []]
          ++ [Event.doneSend], o⟩ : Res).state.conns
          = c.conns ++ spawned (acceptLoop c accepts).trace
      ∧ spawned (t ++ (acceptLoop c accepts).trace ++ [LogInfo c "run terminated" []]
          ++ [Event.doneSend]) = spawned t ++ spawned (acceptLoop c accepts).trace
      ∧ ((∀ e ∈ t, e.isClose = false) →
          ∀ e ∈ t ++ (acceptLoop c accepts).trace ++ [LogInfo c "run terminated" []]
            ++ [Event.doneSend], e.isClose = false) := by
    intro st o hst
    refine ⟨by simp only [hst, h1], by simp [spawned_append, spawned, LogInfo], ?_⟩
    intro ht e he
    simp only [List.mem_append, List.mem_singleton] at he
    rcases he with ((he | he) | rfl) | rfl
    · exact ht e he
    · exact h2 e he
    · rfl
    · rfl
  unfold runLoop
  cases ho : (acceptLoop c accepts).outcome with
  | returned =>
    cases hs : (acceptLoop c accepts).state.done.send with
    | none =>
      simp only [ho, hs]
      refine ⟨h1, by simp [spawned_append, spawned, LogInfo], ?_⟩
      intro ht e he
      simp only [List.mem_append, List.mem_singleton] at he
      rcases he with (he | he) | rfl
      · exact ht e he
      · exact h2 e he
      · rfl
    | some r =>
      obtain ⟨b, ch⟩ := r
      cases b with
      | true =>
        simp only [ho, hs]
        exact hsent _ Outcome.returned rfl
      | false =>
        simp only [ho, hs]
        exact hsent _ Outcome.blockedSend rfl
  | blockedAccept | blockedRecv | blockedSend | fatal | panicNilListener | panicCloseClosed
    | panicSendClosed =>
    simp only [ho]
    refine ⟨h1, by simp [spawned_append], ?_⟩
    intro ht e he
    simp only [List.mem_append] at he
    rcases he with he | he
    · exact ht e he
    · exact h2 e he

/-- Method `Run` registers exactly the connections it dispatches a worker for, in
order, and closes no socket itself. -/
theorem Run_registers (env : Env) (c : ProtobufPowerDNS) (accepts : List AcceptResult) :
    (Run env c accepts).state.conns = c.conns ++ spawned (Run env c accepts).trace
    ∧ (∀ e ∈ (Run env c accepts).trace, e.isClose = false) := by
  obtain ⟨k1, k2, k3⟩ := Listen_registers env c
  unfold Run
  cases hl : c.listen with
  | some l =>
    obtain ⟨h1, h2, h3⟩ := runLoop_registers c [LogInfo c "starting collector..." []] accepts
    simp only
    refine ⟨?_, h3 ?_⟩
    · rw [h1, h2]; simp [spawned, LogInfo]
    · intro e he
      simp only [List.mem_singleton] at he
      subst he; rfl
  | none =>
    simp only
    have hpre : ∀ e ∈ [LogInfo c "starting collector..." []] ++ (Listen env c).1.trace,
        e.isClose = false := by
      intro e he
      simp only [List.mem_append, List.mem_singleton] at he
      rcases he with rfl | he
      · rfl
      · exact k3 e he
    have hsp : spawned ([LogInfo c "starting collector..." []] ++ (Listen env c).1.trace)
        = [] := by
      rw [spawned_append, k2]; simp [spawned, LogInfo]
    cases ho : (Listen env c).1.outcome with
    | returned =>
      cases he : (Listen env c).2 with
      | none =>
        obtain ⟨h1, h2, h3⟩ := runLoop_registers (Listen env c).1.state
          ([LogInfo c "starting collector..." []] ++ (Listen env c).1.trace) accepts
        simp only [ho, he]
        refine ⟨?_, h3 hpre⟩
        rw [h1, h2, hsp, k1]; simp
      | some err =>
        simp only [ho, he]
        refine ⟨?_, ?_⟩
        · rw [spawned_append, hsp, k1]; simp [spawned]
        · intro e hm
          simp only [List.mem_append, List.mem_singleton] at hm
          rcases hm with hm | rfl
          · exact hpre e (by simpa using hm)
          · rfl
    | blockedAccept | blockedRecv | blockedSend | fatal | panicNilListener
      | panicCloseClosed | panicSendClosed =>
      simp only [ho]
      exact ⟨by rw [hsp, k1]; simp, hpre⟩

/-- C4, as amended: an accepted socket is closed once by its worker and once
more by `Stop`.  Take a collector that tracks no connection yet, any script of
accept results, any way stream processing ends, and a connection for which
`Run` dispatched exactly one worker.  Then `Run` itself never closes it; the
workers close it exactly once (its own worker, at the end of `HandleConn`);
`Stop`, run on the state `Run` built, closes it exactly once more, because
`Run` registered it and the tracked list is never pruned; so in every ordering
of the events of that life the socket is closed exactly twice. -/
theorem close_count_over_execution (env envStop : Env) (c : ProtobufPowerDNS)
    (accepts : List AcceptResult) (stream : Conn → Option String) (conn : Conn)
    (hfresh : c.conns = [])
    (hconn : (spawned (Run env c accepts).trace).count conn = 1) :
    closeCount conn (Run env c accepts).trace = 0
    ∧ closeCount conn
        (workers env (Run env c accepts).state stream (spawned (Run env c accepts).trace)) = 1
    ∧ closeCount conn (Stop envStop (Run env c accepts).state).trace = 1
    ∧ (∀ t, List.Perm t (execution env envStop c accepts stream) → closeCount conn t = 2) := by
  obtain ⟨h1, h2⟩ := Run_registers env c accepts
  have a1 : closeCount conn (Run env c accepts).trace = 0 :=
    closeCount_of_isClose_false conn _ h2
  have a2 : closeCount conn
      (workers env (Run env c accepts).state stream (spawned (Run env c accepts).trace)) = 1 := by
    rw [closeCount_workers, hconn]
  have a3 : closeCount conn (Stop envStop (Run env c accepts).state).trace = 1 := by
    rw [closeCount_Stop, h1, hfresh, List.nil_append, hconn]
  refine ⟨a1, a2, a3, ?_⟩
  intro t ht
  rw [closeCount_perm conn ht, execution, closeCount_append, closeCount_append, a1, a2, a3]

/-- C4, as amended, at a listening collector that accepts one connection. -/
theorem close_count_over_execution_witness :
    listeningCollector.conns = []
    ∧ (spawned (Run sampleEnv listeningCollector
        [AcceptResult.conn conn1 none, AcceptResult.err]).trace).count conn1 = 1
    ∧ closeCount conn1
        (Stop failingCloseEnv (Run sampleEnv listeningCollector
          [AcceptResult.conn conn1 none, AcceptResult.err]).state).trace = 1 :=
  ⟨rfl, by decide,
    (close_count_over_execution sampleEnv failingCloseEnv listeningCollector
      [AcceptResult.conn conn1 none, AcceptResult.err] sampleStream conn1 rfl
      (by decide)).2.2.1⟩

/-- C4 as stated fails: a listening collector accepts one connection; its
worker closes the socket once, `Stop` closes the same socket again, so the
socket is closed twice over that life, not once, and one of the two closes is
made by `Stop`. -/
theorem accepted_socket_closed_twice :
    spawned (Run sampleEnv listeningCollector
        [AcceptResult.conn conn1 none, AcceptResult.err]).trace = [conn1]
    ∧ closeCount conn1 (HandleConn sampleEnv (Run sampleEnv listeningCollector
        [AcceptResult.conn conn1 none, AcceptResult.err]).state conn1 (sampleStream conn1)) = 1
    ∧ Event.close conn1 false true
        ∈ (Stop failingCloseEnv (Run sampleEnv listeningCollector
            [AcceptResult.conn conn1 none, AcceptResult.err]).state).trace
    ∧ closeCount conn1 (execution sampleEnv failingCloseEnv listeningCollector
        [AcceptResult.conn conn1 none, AcceptResult.err] sampleStream) = 2
    ∧ closeCount conn1 (execution sampleEnv failingCloseEnv listeningCollector
        [AcceptResult.conn conn1 none, AcceptResult.err] sampleStream) ≠ 1 := by
  decide

end PowerDNS

namespace Suspicious

/-! ## Suspicious-traffic detector -/

theorem reaches_iff (value threshold : Int) :
    reaches value threshold = true ↔ threshold ≠ 0 ∧ threshold ≤ value := by
  simp [reaches]

/-- The result block after `InitDnsMessage` and `CheckIfSuspicious` on an
enabled detector, written out in terms of the six criteria. -/
theorem CheckIfSuspicious_block (p : SuspiciousSubprocessor) (dm : DnsMessage)
    (he : p.config.Enable = true) :
    (CheckIfSuspicious p (InitDnsMessage p dm)).Suspicious
      = { Score := (triggers p dm).count true
          MalformedPacket := dm.DNS.MalformedPacket
          LargePacket := reaches dm.DNS.Length p.config.ThresholdPacketLen
          LongDomain := reaches dm.DNS.Qname.length p.config.ThresholdQnameLen
          SlowDomain := false
          UnallowedChars := hasUnallowedChars dm.DNS.Qname
          UncommonQtypes := !p.CommonQtypes.contains dm.DNS.Qtype
          ExcessiveNumberLabels := reaches (labelCount dm.DNS.Qname) p.config.ThresholdMaxLabels } := by
  simp only [CheckIfSuspicious, InitDnsMessage, he, triggers, TransformSuspicious.zero]
  generalize dm.DNS.MalformedPacket = m
  generalize reaches dm.DNS.Length p.config.ThresholdPacketLen = a
  generalize reaches dm.DNS.Qname.length p.config.ThresholdQnameLen = b
  generalize (!p.CommonQtypes.contains dm.DNS.Qtype) = d
  generalize reaches (labelCount dm.DNS.Qname) p.config.ThresholdMaxLabels = e
  generalize hasUnallowedChars dm.DNS.Qname = f
  cases m <;> cases a <;> cases b <;> cases d <;> cases e <;> cases f <;> rfl

/-- C10, as amended: on an enabled detector, after `InitDnsMessage` followed by
`CheckIfSuspicious`, each flag is true exactly when its trigger holds, where a
threshold criterion holds when its threshold is not zero and the value reaches
it (a zero threshold never matches): malformed-packet when the decoder marked
the record malformed; large-packet when the packet-length threshold is non-zero
and at most the packet length; long-domain when the qname-length threshold is
non-zero and at most the qname length; uncommon-qtype when the qtype is outside
the allow-list; excessive-labels when the max-labels threshold is non-zero and
at most the label count; unallowed-chars when the qname has a character outside
letters, digits, hyphen and dot; slow-domain never.  The score is the number of
true flags, which is the number of criteria that hold; so a record that
triggers exactly one criterion has score 1 and a single flag set. -/
theorem CheckIfSuspicious_flags (p : SuspiciousSubprocessor) (dm : DnsMessage)
    (he : p.config.Enable = true) :
    ((CheckIfSuspicious p (InitDnsMessage p dm)).Suspicious.MalformedPacket = true
        ↔ dm.DNS.MalformedPacket = true)
    ∧ ((CheckIfSuspicious p (InitDnsMessage p dm)).Suspicious.LargePacket = true
        ↔ p.config.ThresholdPacketLen ≠ 0 ∧ p.config.ThresholdPacketLen ≤ dm.DNS.Length)
    ∧ ((CheckIfSuspicious p (InitDnsMessage p dm)).Suspicious.LongDomain = true
        ↔ p.config.ThresholdQnameLen ≠ 0
          ∧ p.config.ThresholdQnameLen ≤ (dm.DNS.Qname.length : Int))
    ∧ ((CheckIfSuspicious p (InitDnsMessage p dm)).Suspicious.UncommonQtypes = true
        ↔ dm.DNS.Qtype ∉ p.CommonQtypes)
    ∧ ((CheckIfSuspicious p (InitDnsMessage p dm)).Suspicious.ExcessiveNumberLabels = true
        ↔ p.config.ThresholdMaxLabels ≠ 0
          ∧ p.config.ThresholdMaxLabels ≤ (labelCount dm.DNS.Qname : Int))
    ∧ ((CheckIfSuspicious p (InitDnsMessage p dm)).Suspicious.UnallowedChars = true
        ↔ ∃ ch ∈ dm.DNS.Qname.data, allowedChar ch = false)
    ∧ (CheckIfSuspicious p (InitDnsMessage p dm)).Suspicious.SlowDomain = false
    ∧ (CheckIfSuspicious p (InitDnsMessage p dm)).Suspicious.Score
        = (CheckIfSuspicious p (InitDnsMessage p dm)).Suspicious.flagCount
    ∧ (CheckIfSuspicious p (InitDnsMessage p dm)).Suspicious.Score
        = (triggers p dm).count true
    ∧ ((triggers p dm).count true = 1 →
        (CheckIfSuspicious p (InitDnsMessage p dm)).Suspicious.Score = 1
        ∧ (CheckIfSuspicious p (InitDnsMessage p dm)).Suspicious.flagCount = 1) := by
  have hcount : (CheckIfSuspicious p (InitDnsMessage p dm)).Suspicious.flagCount
      = (triggers p dm).count true := by
    rw [CheckIfSuspicious_block p dm he]
    simp only [TransformSuspicious.flagCount, triggers]
    generalize dm.DNS.MalformedPacket = m
    generalize reaches dm.DNS.Length p.config.ThresholdPacketLen = a
    generalize reaches dm.DNS.Qname.length p.config.ThresholdQnameLen = b
    generalize (!p.CommonQtypes.contains dm.DNS.Qtype) = d
    generalize reaches (labelCount dm.DNS.Qname) p.config.ThresholdMaxLabels = e
    generalize hasUnallowedChars dm.DNS.Qname = f
    cases m <;> cases a <;> cases b <;> cases d <;> cases e <;> cases f <;> rfl
  have hscore : (CheckIfSuspicious p (InitDnsMessage p dm)).Suspicious.Score
      = (triggers p dm).count true := by
    rw [CheckIfSuspicious_block p dm he]
  refine ⟨?_, ?_, ?_, ?_, ?_, ?_, ?_, ?_, hscore, ?_⟩
  · rw [CheckIfSuspicious_block p dm he]
  · rw [CheckIfSuspicious_block p dm he]; exact reaches_iff _ _
  · rw [CheckIfSuspicious_block p dm he]; exact reaches_iff _ _
  · rw [CheckIfSuspicious_block p dm he]; simp
  · rw [CheckIfSuspicious_block p dm he]; exact reaches_iff _ _
  · rw [CheckIfSuspicious_block p dm he]; simp [hasUnallowedChars]
  · rw [CheckIfSuspicious_block p dm he]
  · rw [hscore, hcount]
  · intro h1
    exact ⟨hscore.trans h1, hcount.trans h1⟩

/-- C10, as amended, on the record of the unallowed-characters test against the
sample detector: only that criterion holds, so the score is 1 and one flag is
set. -/
theorem CheckIfSuspicious_flags_witness :
    sampleProcessor.config.Enable = true
    ∧ (triggers sampleProcessor paddedMessage).count true = 1
    ∧ (CheckIfSuspicious sampleProcessor
        (InitDnsMessage sampleProcessor paddedMessage)).Suspicious.Score = 1
    ∧ (CheckIfSuspicious sampleProcessor
        (InitDnsMessage sampleProcessor paddedMessage)).Suspicious.flagCount = 1 :=
  ⟨rfl, by decide,
    (CheckIfSuspicious_flags sampleProcessor paddedMessage rfl).2.2.2.2.2.2.2.2.2 (by decide)⟩

/-- C10 as stated fails for a zero threshold: with the packet-length threshold
at zero, a packet of 50 bytes is at least the threshold, and yet the
large-packet flag stays false and the score stays 0. -/
theorem zero_threshold_never_matches :
    zeroThresholdProcessor.config.Enable = true
    ∧ zeroThresholdProcessor.config.ThresholdPacketLen ≤ sampleMessage.DNS.Length
    ∧ (CheckIfSuspicious zeroThresholdProcessor
        (InitDnsMessage zeroThresholdProcessor sampleMessage)).Suspicious.LargePacket = false
    ∧ (CheckIfSuspicious zeroThresholdProcessor
        (InitDnsMessage zeroThresholdProcessor sampleMessage)).Suspicious.Score = 0
    ∧ ¬ ((CheckIfSuspicious zeroThresholdProcessor
          (InitDnsMessage zeroThresholdProcessor sampleMessage)).Suspicious.LargePacket = true
        ↔ zeroThresholdProcessor.config.ThresholdPacketLen ≤ sampleMessage.DNS.Length) := by
  decide

end Suspicious
